import Mathlib

/-!
Shallow embedding of the mood decision/learning engine of the
mood-adaptive-art-system repository (`src/lib/ai/AdvancedMoodAI.ts`,
the full engine variant with pattern store; the deployed
`src/src/lib/ai/AdvancedMoodAI.ts` agrees on every behaviour verified here).

Modelling conventions:
* JavaScript numbers are modelled as `ℚ`.  The only places where a JS
  computation can produce a non-finite number (`NaN` from `0/0`, `±Infinity`
  from `x/0`) are the A/B-test completion averages and confidence quotient;
  those are modelled as `Option ℚ` with `none` standing for a non-finite value.
* The sigmoid activation `1/(1+exp(-x))` is transcendental, so the activation
  is a parameter `σ : ℚ → ℚ` of every function that runs the network; theorems
  that need it assume `∀ x, 0 ≤ σ x ∧ σ x ≤ 1`, which holds for the real
  sigmoid.  No verified property depends on any other fact about sigmoid.
* `Date.now()` and `Math.random()` are external inputs; every operation that
  reads them takes the value as an explicit argument (`now`, fresh ids,
  the random initial weights, the random sample durations).
* Mutable class state is passed explicitly: each mutating method becomes a
  function `State → ... → State`.
-/

/-! ### Context data model (interfaces `ContextData`, `VisionData`, `AudioData`) -/

inductive TimeOfDay
  | morning | afternoon | evening | night
deriving DecidableEq

inductive DayOfWeek
  | weekday | weekend
deriving DecidableEq

inductive Season
  | spring | summer | fall | winter
deriving DecidableEq

inductive Weather
  | sunny | cloudy | rainy | stormy
deriving DecidableEq

/-- Fields of `VisionData` that the engine reads (`peopleCount`, `avgMovement`)
or stores in its sample data (`crowdDensity`, `lastUpdate`).  The remaining
fields (`dominantAge`, `boundingBoxes`, detection `confidence`, `energyLevel`)
are never consulted by `AdvancedMoodAI` and are omitted. -/
structure VisionData where
  peopleCount : ℚ
  avgMovement : ℚ
  crowdDensity : ℚ
  lastUpdate : ℚ
deriving DecidableEq

/-- Fields of `AudioData` that the engine reads or stores in its sample data. -/
structure AudioData where
  energy : ℚ
  volumeLevel : ℚ
  spectralCentroid : ℚ
  conversational : ℚ
  musical : ℚ
  complexity : ℚ
  lastUpdate : ℚ
deriving DecidableEq

structure Environmental where
  timeOfDay : TimeOfDay
  dayOfWeek : DayOfWeek
  season : Season
  weather : Option Weather
  specialEvents : Option (List String)
deriving DecidableEq

structure ContextData where
  vision : Option VisionData
  audio : Option AudioData
  environmental : Environmental
  timestamp : ℚ
deriving DecidableEq

def timeOfDayStr : TimeOfDay → String
  | .morning => "morning"
  | .afternoon => "afternoon"
  | .evening => "evening"
  | .night => "night"

def dayOfWeekStr : DayOfWeek → String
  | .weekday => "weekday"
  | .weekend => "weekend"

def seasonStr : Season → String
  | .spring => "spring"
  | .summer => "summer"
  | .fall => "fall"
  | .winter => "winter"

def weatherStr : Weather → String
  | .sunny => "sunny"
  | .cloudy => "cloudy"
  | .rainy => "rainy"
  | .stormy => "stormy"

/-! ### Dynamic values and pattern conditions (interface `Pattern`) -/

/-- A dynamically typed JavaScript value as it flows out of `getContextValue`
and into a pattern condition: a number, a string, a two-number array (the form
used by the `between` operator), or `undefined`. -/
inductive JsVal
  | num (q : ℚ)
  | str (s : String)
  | pair (lo hi : ℚ)
  | undef
deriving DecidableEq

inductive CondOp
  | gt | lt | eq | between | contains
deriving DecidableEq

structure Condition where
  parameter : String
  operator : CondOp
  value : JsVal
deriving DecidableEq

inductive PatternType
  | temporal | crowd | audio | hybrid
deriving DecidableEq

structure Pattern where
  id : String
  type : PatternType
  conditions : List Condition
  recommendedMood : String
  confidence : ℚ
  successRate : ℚ
  lastUpdated : ℚ
deriving DecidableEq

/-! ### Mood vocabulary (`moodMappings`, `moodNames`) -/

def moodNames : List String :=
  ["Energetic", "Social", "Contemplative", "Mysterious", "Peaceful"]

/-- `this.moodMappings` as a partial map; `none` models a lookup of a name
outside the fixed vocabulary (JS `undefined`). -/
def moodMappings (mood : String) : Option ℕ :=
  if mood = "Energetic" then some 0
  else if mood = "Social" then some 1
  else if mood = "Contemplative" then some 2
  else if mood = "Mysterious" then some 3
  else if mood = "Peaceful" then some 4
  else none

/-! ### The neural network (`class MoodNeuralNetwork`) -/

/-- `weights[0]` is the 5 x 8 input-to-hidden matrix, `weights[1]` the 8 x 5
hidden-to-output matrix; `biases[0]`/`biases[1]` the hidden/output biases.
The constructor fills them with `(Math.random() - 0.5) * 2`, so the content is
an arbitrary parameter here. -/
structure MoodNeuralNetwork where
  weights : List (List (List ℚ))
  biases : List (List ℚ)
deriving DecidableEq

def learningRate : ℚ := 1 / 100

/-- Forward pass of `MoodNeuralNetwork.predict`: for each layer, each neuron
`n` outputs `σ (biases[layer][n] + Σ_i current[i] * weights[layer][i][n])`;
the neuron count of a layer is `weights[layer][0].length` as in the source. -/
def MoodNeuralNetwork.predict (σ : ℚ → ℚ) (net : MoodNeuralNetwork)
    (inputs : List ℚ) : List ℚ :=
  (List.range net.weights.length).foldl (fun current layer =>
    (List.range ((net.weights.getD layer []).getD 0 []).length).map fun neuron =>
      σ (((net.biases.getD layer []).getD neuron 0) +
        (List.range current.length).foldl (fun sum input =>
          sum + current.getD input 0 *
            ((net.weights.getD layer []).getD input []).getD neuron 0) 0))
    inputs

/-- The per-output errors `expectedOutputs[i] - predictions[i]` computed at the
top of `MoodNeuralNetwork.train`. -/
def trainErrors (σ : ℚ → ℚ) (net : MoodNeuralNetwork)
    (inputs expectedOutputs : List ℚ) : List ℚ :=
  let predictions := net.predict σ inputs
  expectedOutputs.mapIdx fun i expected => expected - predictions.getD i 0

/-- `MoodNeuralNetwork.train`: for each output index `i` with
`|errors[i]| > 0.1`, every row `j` of the output-layer matrix gets
`weights[1][j][i] += learningRate * errors[i] * predictions[i]`.
Nothing else is written.  (Positions `i` beyond `errors.length` read the JS
out-of-loop default, modelled by `errors.getD i 0 = 0`, so they are never
updated, exactly like the source loop bound `i < errors.length`.) -/
def MoodNeuralNetwork.train (σ : ℚ → ℚ) (net : MoodNeuralNetwork)
    (inputs expectedOutputs : List ℚ) : MoodNeuralNetwork :=
  let predictions := net.predict σ inputs
  let errors := trainErrors σ net inputs expectedOutputs
  let newOutputLayer := (net.weights.getD 1 []).map fun row =>
    row.mapIdx fun i w =>
      if 1/10 < |errors.getD i 0| then
        w + learningRate * errors.getD i 0 * predictions.getD i 0
      else w
  { net with weights := net.weights.set 1 newOutputLayer }

/-! ### Dynamic context lookup (`getContextValue`) and condition evaluation -/

/-- `getContextValue` walks a dotted path through the context object; a `null`
sub-object or unknown path yields `undefined` (the JS optional chaining
`value?.[key]`).  Paths to fields not modelled (e.g. `specialEvents`, or whole
sub-objects like `"vision"`) also yield `undef`; the engine only ever builds
conditions over the leaf paths listed here. -/
def getContextValue (context : ContextData) (parameter : String) : JsVal :=
  if parameter = "vision.peopleCount" then
    match context.vision with | some v => .num v.peopleCount | none => .undef
  else if parameter = "vision.avgMovement" then
    match context.vision with | some v => .num v.avgMovement | none => .undef
  else if parameter = "vision.crowdDensity" then
    match context.vision with | some v => .num v.crowdDensity | none => .undef
  else if parameter = "vision.lastUpdate" then
    match context.vision with | some v => .num v.lastUpdate | none => .undef
  else if parameter = "audio.energy" then
    match context.audio with | some a => .num a.energy | none => .undef
  else if parameter = "audio.volumeLevel" then
    match context.audio with | some a => .num a.volumeLevel | none => .undef
  else if parameter = "audio.spectralCentroid" then
    match context.audio with | some a => .num a.spectralCentroid | none => .undef
  else if parameter = "audio.conversational" then
    match context.audio with | some a => .num a.conversational | none => .undef
  else if parameter = "audio.musical" then
    match context.audio with | some a => .num a.musical | none => .undef
  else if parameter = "audio.complexity" then
    match context.audio with | some a => .num a.complexity | none => .undef
  else if parameter = "audio.lastUpdate" then
    match context.audio with | some a => .num a.lastUpdate | none => .undef
  else if parameter = "environmental.timeOfDay" then
    .str (timeOfDayStr context.environmental.timeOfDay)
  else if parameter = "environmental.dayOfWeek" then
    .str (dayOfWeekStr context.environmental.dayOfWeek)
  else if parameter = "environmental.season" then
    .str (seasonStr context.environmental.season)
  else if parameter = "environmental.weather" then
    match context.environmental.weather with | some w => .str (weatherStr w) | none => .undef
  else if parameter = "timestamp" then .num context.timestamp
  else .undef

def jsValToString : JsVal → String
  | .num q => toString q
  | .str s => s
  | .pair lo hi => toString lo ++ "," ++ toString hi
  | .undef => "undefined"

def strIncludes (hay needle : String) : Bool :=
  if needle = "" then true else 2 ≤ (hay.splitOn needle).length

/-- One `switch (condition.operator)` case of `patternMatches`.  Comparisons
involving `undefined` are `false` (JS `NaN` comparisons); `=` is JS strict
equality; `between` expects the condition value to be a two-number array;
`contains` coerces both sides to strings. -/
def evalCondition (value : JsVal) (op : CondOp) (condValue : JsVal) : Bool :=
  match op with
  | .gt =>
    match value, condValue with
    | .num a, .num b => decide (b < a)
    | .str a, .str b => decide (b < a)
    | _, _ => false
  | .lt =>
    match value, condValue with
    | .num a, .num b => decide (a < b)
    | .str a, .str b => decide (a < b)
    | _, _ => false
  | .eq => decide (value = condValue)
  | .between =>
    match value, condValue with
    | .num x, .pair lo hi => decide (lo ≤ x ∧ x ≤ hi)
    | _, _ => false
  | .contains => strIncludes (jsValToString value) (jsValToString condValue)

/-- `patternMatches`: every condition must hold (AND semantics). -/
def patternMatches (pattern : Pattern) (context : ContextData) : Bool :=
  pattern.conditions.all fun condition =>
    evalCondition (getContextValue context condition.parameter)
      condition.operator condition.value

/-! ### Similarity (`calculateContextSimilarity`, `findSimilarContexts`) -/

/-- `calculateContextSimilarity`: the vision channel (if present on both
sides) adds `(peopleCountSim + movementSim) * 0.4` to the accumulator but only
`0.4` to `factors`; the audio channel adds `(energySim + volumeSim) * 0.3`
against `0.3`; the environmental channel always adds
`(timeMatch + dayMatch) * 0.15` against `0.3`; finally `similarity / factors`. -/
def calculateContextSimilarity (context1 context2 : ContextData) : ℚ :=
  let visionPart : ℚ × ℚ :=
    match context1.vision, context2.vision with
    | some v1, some v2 =>
      let peopleCountSim := 1 - |v1.peopleCount - v2.peopleCount| / 50
      let movementSim := 1 - |v1.avgMovement - v2.avgMovement|
      ((peopleCountSim + movementSim) * (2/5), 2/5)
    | _, _ => (0, 0)
  let audioPart : ℚ × ℚ :=
    match context1.audio, context2.audio with
    | some a1, some a2 =>
      let energySim := 1 - |a1.energy - a2.energy|
      let volumeSim := 1 - |a1.volumeLevel - a2.volumeLevel|
      ((energySim + volumeSim) * (3/10), 3/10)
    | _, _ => (0, 0)
  let timeMatch : ℚ :=
    if context1.environmental.timeOfDay = context2.environmental.timeOfDay then 1 else 0
  let dayMatch : ℚ :=
    if context1.environmental.dayOfWeek = context2.environmental.dayOfWeek then 1 else 0
  let similarity := visionPart.1 + audioPart.1 + (timeMatch + dayMatch) * (3/20)
  let factors := visionPart.2 + audioPart.2 + 3/10
  if 0 < factors then similarity / factors else 0

structure Outcome where
  engagement : ℚ
  duration : ℚ
  audienceGrowth : ℚ
  feedback : ℚ
deriving DecidableEq

structure LearningRecord where
  context : ContextData
  appliedMood : String
  outcome : Outcome
  timestamp : ℚ
deriving DecidableEq

/-- A learning record decorated with its similarity to the query context
(the `{ ...session, similarity }` spread in `findSimilarContexts`). -/
structure ScoredRecord where
  context : ContextData
  appliedMood : String
  outcome : Outcome
  timestamp : ℚ
  similarity : ℚ
deriving DecidableEq

/-- `findSimilarContexts`: score, filter by threshold, sort descending by
similarity (`Array.prototype.sort` is stable, as is `mergeSort`), keep 10. -/
def findSimilarContexts (db : List LearningRecord) (context : ContextData)
    (threshold : ℚ) : List ScoredRecord :=
  ((((db.map fun session =>
      ScoredRecord.mk session.context session.appliedMood session.outcome
        session.timestamp
        (calculateContextSimilarity context session.context)).filter
    fun session => threshold ≤ session.similarity).mergeSort
    fun a b => decide (b.similarity ≤ a.similarity)).take 10)

/-! ### The four prediction signals -/

def timeToValue : TimeOfDay → ℚ
  | .morning => 1/5
  | .afternoon => 1/2
  | .evening => 4/5
  | .night => 1/10

def weatherToValue : Weather → ℚ
  | .sunny => 4/5
  | .cloudy => 1/2
  | .rainy => 1/5
  | .stormy => 1/10

/-- `contextToInputs`: the 5-element feature vector
`[min(1, peopleCount/50), avgMovement, audioEnergy, timeValue, weatherValue]`
with `0` substituted for missing vision/audio and `sunny` for missing
weather. -/
def contextToInputs (context : ContextData) : List ℚ :=
  [ min 1 ((match context.vision with | some v => v.peopleCount | none => 0) / 50),
    (match context.vision with | some v => v.avgMovement | none => 0),
    (match context.audio with | some a => a.energy | none => 0),
    timeToValue context.environmental.timeOfDay,
    weatherToValue (context.environmental.weather.getD Weather.sunny) ]

def uniformProbabilities : List ℚ := [1/5, 1/5, 1/5, 1/5, 1/5]

structure PatternPrediction where
  moodProbabilities : List ℚ
  confidence : ℚ
  matchedPatterns : List Pattern
deriving DecidableEq

/-- `applyPatternRecognition`.  A matched pattern whose `recommendedMood` is
outside the vocabulary would make the source write to `votes[undefined]`,
which leaves the five numeric array entries and their `reduce` sum unchanged,
so it is modelled as a skip. -/
def applyPatternRecognition (patterns : List Pattern) (context : ContextData) :
    PatternPrediction :=
  let matchedPatterns := patterns.filter fun pattern => patternMatches pattern context
  if matchedPatterns.isEmpty then
    { moodProbabilities := uniformProbabilities, confidence := 1/10, matchedPatterns := [] }
  else
    let weightedVotes := matchedPatterns.foldl (fun votes pattern =>
        match moodMappings pattern.recommendedMood with
        | some moodIdx => votes.mapIdx fun j v =>
            if j = moodIdx then v + pattern.successRate * pattern.confidence else v
        | none => votes)
      (List.replicate 5 0)
    let total := weightedVotes.sum
    let probabilities :=
      if 0 < total then weightedVotes.map (fun vote => vote / total)
      else uniformProbabilities
    { moodProbabilities := probabilities,
      confidence := min 1 ((matchedPatterns.length : ℚ) * (1/5)),
      matchedPatterns := matchedPatterns }

structure HistoricalPrediction where
  moodProbabilities : List ℚ
  confidence : ℚ
  similarContexts : ℕ
deriving DecidableEq

/-- The `reduce` accumulating `{total, count}` per mood index over the similar
sessions (records with an unknown `appliedMood` are skipped by the
`moodIndex !== undefined` check). -/
def moodPerformance (sessions : List ScoredRecord) : List (ℚ × ℕ) :=
  sessions.foldl (fun acc session =>
      match moodMappings session.appliedMood with
      | some moodIdx => acc.mapIdx fun j entry =>
          if j = moodIdx then (entry.1 + session.outcome.engagement, entry.2 + 1)
          else entry
      | none => acc)
    (List.replicate 5 (0, 0))

/-- `applyHistoricalLearning` (threshold 0.8, uniform fallback below 3 similar
records, per-mood mean engagement, normalisation). -/
def applyHistoricalLearning (db : List LearningRecord) (context : ContextData) :
    HistoricalPrediction :=
  let similarContexts := findSimilarContexts db context (4/5)
  if similarContexts.length < 3 then
    { moodProbabilities := uniformProbabilities, confidence := 1/10,
      similarContexts := similarContexts.length }
  else
    let perf := moodPerformance similarContexts
    let probabilities := perf.map fun entry =>
      if 0 < entry.2 then entry.1 / (entry.2 : ℚ) else 1/5
    let total := probabilities.sum
    let normalizedProbs :=
      if 0 < total then probabilities.map (fun p => p / total)
      else uniformProbabilities
    { moodProbabilities := normalizedProbs,
      confidence := min 1 ((similarContexts.length : ℚ) * (1/10)),
      similarContexts := similarContexts.length }

structure TemporalAdjustment where
  moodAdjustments : List ℚ
  relevance : ℚ
deriving DecidableEq

/-- `adjustments[i] += v` on the five-element adjustment array. -/
def addAt (l : List ℚ) (i : ℕ) (v : ℚ) : List ℚ :=
  l.mapIdx fun j x => if j = i then x + v else x

/-- `applyTemporalContext`: fixed additive nudges — morning favours
Peaceful (+0.2) and Contemplative (+0.1), evening favours Energetic (+0.2) and
Social (+0.15), weekend favours Social (+0.15) and Energetic (+0.1);
relevance is the constant 0.7. -/
def applyTemporalContext (context : ContextData) : TemporalAdjustment :=
  let adjustments : List ℚ := [0, 0, 0, 0, 0]
  let adjustments :=
    if context.environmental.timeOfDay = TimeOfDay.morning then
      addAt (addAt adjustments 4 (1/5)) 2 (1/10)
    else adjustments
  let adjustments :=
    if context.environmental.timeOfDay = TimeOfDay.evening then
      addAt (addAt adjustments 0 (1/5)) 1 (3/20)
    else adjustments
  let adjustments :=
    if context.environmental.dayOfWeek = DayOfWeek.weekend then
      addAt (addAt adjustments 1 (3/20)) 0 (1/10)
    else adjustments
  { moodAdjustments := adjustments, relevance := 7/10 }

/-! ### Ensemble combination (`combinepredictions`) -/

/-- `combinepredictions` (the source spells it lower-case): weights are
`neural 0.4`, `pattern 0.3 * patternConfidence`,
`historical 0.2 * historicalConfidence`, `temporal 0.1`; each output entry is
the weighted sum divided by the total weight. -/
def combinepredictions (neural : List ℚ) (pattern : PatternPrediction)
    (historical : HistoricalPrediction) (temporal : TemporalAdjustment) : List ℚ :=
  let wNeural : ℚ := 2/5
  let wPattern : ℚ := (3/10) * pattern.confidence
  let wHistorical : ℚ := (1/5) * historical.confidence
  let wTemporal : ℚ := 1/10
  let totalWeight := wNeural + wPattern + wHistorical + wTemporal
  neural.mapIdx fun index _ =>
    (neural.getD index 0 * wNeural +
     pattern.moodProbabilities.getD index 0 * wPattern +
     historical.moodProbabilities.getD index 0 * wHistorical +
     temporal.moodAdjustments.getD index 0 * wTemporal) / totalWeight

/-! ### Reasoning generation and outcome/duration prediction -/

/-- JS `Math.round`: floor of `x + 0.5`. -/
def jsRound (q : ℚ) : ℤ := ⌊q + 1/2⌋

/-- JS `x || fallback` on a number already known to be finite: the fallback is
taken exactly when `x` is `0` (falsy). -/
def jsOr (x fallback : ℚ) : ℚ := if x = 0 then fallback else x

/-- The anonymous score object handed to `generateReasoning`. -/
structure ReasoningScores where
  nnScore : ℚ
  patternMatch : ℚ
  historicalSuccess : ℚ
  timeRelevance : ℚ
deriving DecidableEq

/-- `generateReasoning`: templated sentences pushed under the same threshold
tests as the source; numeric interpolation uses the rational rendering of
`Math.round(x)`, which agrees with JS on integers. -/
def generateReasoning (context : ContextData) (mood : String)
    (scores : ReasoningScores) : List String :=
  let r0 : List String := []
  let r1 :=
    if 7/10 < scores.nnScore then
      r0 ++ ["Neural network strongly predicts " ++ mood ++ " (" ++
        toString (jsRound (scores.nnScore * 100)) ++ "% confidence)"]
    else r0
  let r2 :=
    if 1/2 < scores.patternMatch then
      r1 ++ ["Historical patterns support " ++ mood ++ " in similar contexts"]
    else r1
  let r3 :=
    match context.vision with
    | some vision =>
      let ra :=
        if 15 < vision.peopleCount then
          r2 ++ ["High crowd density (" ++ toString vision.peopleCount ++
            " people) suggests " ++ mood]
        else r2
      if 7/10 < vision.avgMovement then
        ra ++ ["High movement energy (" ++
          toString (jsRound (vision.avgMovement * 100)) ++ "%) aligns with " ++ mood]
      else ra
    | none => r2
  let r4 :=
    match context.audio with
    | some audio =>
      let ra :=
        if 3/5 < audio.energy then
          r3 ++ ["Audio energy level (" ++ toString (jsRound (audio.energy * 100)) ++
            "%) supports " ++ mood]
        else r3
      if 7/10 < audio.conversational then
        ra ++ ["Strong conversational activity indicates social engagement"]
      else ra
    | none => r3
  let r5 :=
    if context.environmental.timeOfDay = TimeOfDay.morning ∧ mood = "Peaceful" then
      r4 ++ ["Morning hours favor calm, reflective moods"]
    else r4
  let r6 :=
    if context.environmental.timeOfDay = TimeOfDay.evening ∧ mood = "Social" then
      r5 ++ ["Evening timing optimal for social interaction"]
    else r5
  if r6.isEmpty then ["AI recommends " ++ mood ++ " based on current conditions"]
  else r6

/-- `generateAlternativeReasoning` (the `switch (mood)` template). -/
def generateAlternativeReasoning (mood : String) (context : ContextData) : String :=
  if mood = "Energetic" then
    "High energy could work if crowd engagement increases (current: " ++
      toString (match context.vision with | some v => v.peopleCount | none => 0) ++
      " people)"
  else if mood = "Social" then
    "Social mood viable with current conversation level (" ++
      toString (jsRound ((match context.audio with
        | some a => a.conversational | none => 0) * 100)) ++ "%)"
  else if mood = "Contemplative" then
    "Contemplative approach could enhance focus (movement: " ++
      toString (jsRound ((match context.vision with
        | some v => v.avgMovement | none => 0) * 100)) ++ "%)"
  else if mood = "Mysterious" then
    "Mysterious atmosphere could intrigue visitors (audio complexity: " ++
      toString (jsRound ((match context.audio with
        | some a => a.complexity | none => 0) * 100)) ++ "%)"
  else if mood = "Peaceful" then
    "Peaceful setting could improve duration (current engagement: stable)"
  else
    mood ++ " remains a viable alternative based on context"

structure HistoricalOutcomes where
  avgEngagement : ℚ
  avgRetention : ℚ
  avgEnergy : ℚ
deriving DecidableEq

/-- `getHistoricalOutcomes` (similarity threshold 0.6, filter by mood,
averages clamped by `Math.min(1, ·)`, fixed defaults when nothing similar). -/
def getHistoricalOutcomes (db : List LearningRecord) (mood : String)
    (context : ContextData) : HistoricalOutcomes :=
  let similarSessions := (findSimilarContexts db context (3/5)).filter
    fun session => session.appliedMood = mood
  if similarSessions.isEmpty then
    { avgEngagement := 7/10, avgRetention := 3/5, avgEnergy := 1/2 }
  else
    let n : ℚ := (similarSessions.length : ℚ)
    let avgEngagement := (similarSessions.map fun s => s.outcome.engagement).sum / n
    let avgRetention := (similarSessions.map fun s => s.outcome.duration / 600).sum / n
    let avgEnergy := (similarSessions.map fun s =>
      match s.context.audio with
      | some a => jsOr a.energy (1/2)
      | none => 1/2).sum / n
    { avgEngagement := min 1 avgEngagement, avgRetention := min 1 avgRetention,
      avgEnergy := min 1 avgEnergy }

structure ExpectedOutcome where
  engagementScore : ℚ
  audienceRetention : ℚ
  energyLevel : ℚ
deriving DecidableEq

/-- `predictOutcome`: historical averages with `||`-style fallbacks 0.7 / 0.6 /
0.5 (the fallback also fires when the stored average is exactly 0, because JS
`||` treats 0 as falsy). -/
def predictOutcome (db : List LearningRecord) (mood : String)
    (context : ContextData) : ExpectedOutcome :=
  let historicalData := getHistoricalOutcomes db mood context
  { engagementScore := jsOr historicalData.avgEngagement (7/10),
    audienceRetention := jsOr historicalData.avgRetention (3/5),
    energyLevel := jsOr historicalData.avgEnergy (1/2) }

/-- `predictDuration`: average historical duration for the mood (default
300s), scaled by 1.2 for a crowd over 20 and 0.8 for audio energy over 0.8
(the truthiness guards `peopleCount &&` / `energy &&` also exclude 0), then
`Math.round`ed. -/
def predictDuration (db : List LearningRecord) (mood : String)
    (context : ContextData) : ℚ :=
  let historicalDurations := (db.filter fun session =>
    session.appliedMood = mood).map fun session => session.outcome.duration
  if historicalDurations.isEmpty then 300
  else
    let avgDuration := historicalDurations.sum / (historicalDurations.length : ℚ)
    let adjustment : ℚ := 1
    let adjustment :=
      match context.vision with
      | some v => if v.peopleCount ≠ 0 ∧ 20 < v.peopleCount then adjustment * (6/5)
                  else adjustment
      | none => adjustment
    let adjustment :=
      match context.audio with
      | some a => if a.energy ≠ 0 ∧ 4/5 < a.energy then adjustment * (4/5)
                  else adjustment
      | none => adjustment
    ((jsRound (avgDuration * adjustment) : ℤ) : ℚ)

/-! ### The main prediction function (`predictOptimalMood`) -/

structure AlternativeMood where
  mood : String
  probability : ℚ
  reasoning : String
deriving DecidableEq

structure MoodPrediction where
  recommendedMood : String
  confidence : ℚ
  probability : ℚ
  alternativeMoods : List AlternativeMood
  reasoning : List String
  predictedDuration : ℚ
  expectedOutcome : ExpectedOutcome
deriving DecidableEq

/-- One entry of `sortedPredictions` (`{ mood, probability }`). -/
structure RankedMood where
  mood : String
  probability : ℚ
deriving DecidableEq

structure ABTestResult where
  testId : String
  moodA : String
  moodB : String
  context : String
  winnerMood : String
  confidenceLevel : Option ℚ
  engagementDiff : Option ℚ
  sampleSize : ℕ
  startDate : Option ℚ
  endDate : ℚ
deriving DecidableEq

structure ActiveABTest where
  testId : String
  moodA : String
  moodB : String
  context : String
  sessionCount : ℕ
  resultsA : List ℚ
  resultsB : List ℚ
deriving DecidableEq

/-- The mutable state of `class AdvancedMoodAI` (`sessionHistory` is declared
by the source but never written or read). -/
structure AdvancedMoodAI where
  sessionHistory : List ContextData
  learningDatabase : List LearningRecord
  patterns : List Pattern
  neuralNetwork : MoodNeuralNetwork
  abTests : List ABTestResult
  currentABTest : Option ActiveABTest
deriving DecidableEq

/-- The `sortedPredictions` list of `predictOptimalMood`: the ensemble
probabilities paired with the mood names (`moodNames[index]`, JS `undefined`
beyond the vocabulary — unreachable for the 5-output network), sorted
descending by probability (stable sort, like `Array.prototype.sort`). -/
def rankedPredictions (σ : ℚ → ℚ) (st : AdvancedMoodAI)
    (context : ContextData) : List RankedMood :=
  let nnOutputs := st.neuralNetwork.predict σ (contextToInputs context)
  let ensemblePrediction := combinepredictions nnOutputs
    (applyPatternRecognition st.patterns context)
    (applyHistoricalLearning st.learningDatabase context)
    (applyTemporalContext context)
  (ensemblePrediction.mapIdx fun index prob =>
    RankedMood.mk (moodNames.getD index "undefined") prob).mergeSort
    fun a b => decide (b.probability ≤ a.probability)

/-- `predictOptimalMood`: neural, pattern, historical and temporal signals are
combined by `combinepredictions`; the five (mood, probability) pairs are
sorted descending by probability; the head is the recommendation, ranks 2-3
the alternatives. -/
def predictOptimalMood (σ : ℚ → ℚ) (st : AdvancedMoodAI)
    (context : ContextData) : MoodPrediction :=
  let nnInputs := contextToInputs context
  let nnOutputs := st.neuralNetwork.predict σ nnInputs
  let patternPrediction := applyPatternRecognition st.patterns context
  let historicalPrediction := applyHistoricalLearning st.learningDatabase context
  let timeAdjustment := applyTemporalContext context
  let sortedPredictions := rankedPredictions σ st context
  let top := sortedPredictions.getD 0 (RankedMood.mk "undefined" 0)
  let recommendedMood := top.mood
  let confidence := top.probability
  let reasoning := generateReasoning context recommendedMood
    { nnScore := nnOutputs.getD ((moodMappings recommendedMood).getD 0) 0,
      patternMatch := patternPrediction.confidence,
      historicalSuccess := historicalPrediction.confidence,
      timeRelevance := timeAdjustment.relevance }
  { recommendedMood := recommendedMood,
    confidence := confidence,
    probability := confidence,
    alternativeMoods := ((sortedPredictions.drop 1).take 2).map fun pred =>
      { mood := pred.mood, probability := pred.probability,
        reasoning := generateAlternativeReasoning pred.mood context },
    reasoning := reasoning,
    predictedDuration := predictDuration st.learningDatabase recommendedMood context,
    expectedOutcome := predictOutcome st.learningDatabase recommendedMood context }

/-! ### A/B testing (`startABTest`, `recordABTestResult`, `completeABTest`) -/

/-- Mean of an arm's engagement samples; an empty arm is JS `0/0 = NaN`,
modelled `none`. -/
def jsAvg (results : List ℚ) : Option ℚ :=
  if results.isEmpty then none else some (results.sum / (results.length : ℚ))

/-- `parseInt(testId.split('_')[1])`; a malformed id gives JS `NaN`
(modelled `none`). -/
def parseTestIdDate (testId : String) : Option ℚ :=
  match ((testId.splitOn "_").getD 1 "").toNat? with
  | some n => some (n : ℚ)
  | none => none

/-- `updatePatternsFromABTest`: boost every pattern recommending the winner
mood, then damp every pattern recommending the loser mood (two separate
passes, as in the source).  A `NaN` confidence level (`none`, possible when an
arm received no samples) would poison the touched success rates in JS; it is
substituted by 0 here, and no verified claim inspects pattern numerics after
such a completion. -/
def updatePatternsFromABTest (result : ABTestResult) (patterns : List Pattern) :
    List Pattern :=
  let conf := result.confidenceLevel.getD 0
  let loserMood := if result.moodA = result.winnerMood then result.moodB else result.moodA
  let boosted := patterns.map fun pattern =>
    if pattern.recommendedMood = result.winnerMood then
      { pattern with successRate := min 1 (pattern.successRate + conf * (1/10)),
                     confidence := min 1 (pattern.confidence + 1/20) }
    else pattern
  boosted.map fun pattern =>
    if pattern.recommendedMood = loserMood then
      { pattern with successRate := max (1/10) (pattern.successRate - conf * (1/20)) }
    else pattern

/-- `winnerMood: avgA > avgB ? moodA : moodB` — `avgA > avgB` is false when
either side is `NaN` (`none`) and on ties, so the winner falls to `moodB` in
those cases. -/
def abWinnerMood (t : ActiveABTest) (avgA avgB : Option ℚ) : String :=
  match avgA, avgB with
  | some a, some b => if b < a then t.moodA else t.moodB
  | _, _ => t.moodB

/-- `confidenceLevel: |avgA - avgB| / max(avgA, avgB)` — there is no
divide-by-zero guard in the source, so the quotient is non-finite (`none`)
when either average is `NaN` or the maximum is 0. -/
def abConfidenceLevel (avgA avgB : Option ℚ) : Option ℚ :=
  match avgA, avgB with
  | some a, some b => if max a b = 0 then none else some (|a - b| / max a b)
  | _, _ => none

/-- `completeABTest`. -/
def completeABTest (st : AdvancedMoodAI) (now : ℚ) : AdvancedMoodAI :=
  match st.currentABTest with
  | none => st
  | some t =>
    let avgA := jsAvg t.resultsA
    let avgB := jsAvg t.resultsB
    let winnerMood := abWinnerMood t avgA avgB
    let engagementDiff : Option ℚ :=
      match avgA, avgB with
      | some a, some b => some |a - b|
      | _, _ => none
    let confidenceLevel : Option ℚ := abConfidenceLevel avgA avgB
    let result : ABTestResult :=
      { testId := t.testId, moodA := t.moodA, moodB := t.moodB,
        context := t.context, winnerMood := winnerMood,
        confidenceLevel := confidenceLevel, engagementDiff := engagementDiff,
        sampleSize := t.sessionCount, startDate := parseTestIdDate t.testId,
        endDate := now }
    { st with abTests := st.abTests ++ [result], currentABTest := none,
              patterns := updatePatternsFromABTest result st.patterns }

/-- `startABTest` unconditionally replaces any active test; the generated
`ab_${Date.now()}_${random}` id is an explicit argument. -/
def startABTest (st : AdvancedMoodAI) (moodA moodB context testId : String) :
    AdvancedMoodAI :=
  let t : ActiveABTest :=
    { testId := testId, moodA := moodA, moodB := moodB, context := context,
      sessionCount := 0, resultsA := [], resultsB := [] }
  { st with currentABTest := some t }

/-- `recordABTestResult`: a silent no-op when no test is active or the id does
not match; otherwise `sessionCount` is incremented unconditionally, the
engagement sample lands in the arm whose mood matches (and is discarded when
neither matches), and the test auto-completes at 50 sessions. -/
def recordABTestResult (st : AdvancedMoodAI) (testId mood : String)
    (engagement now : ℚ) : AdvancedMoodAI :=
  match st.currentABTest with
  | none => st
  | some t =>
    if t.testId ≠ testId then st
    else
      let t1 := { t with sessionCount := t.sessionCount + 1 }
      let t2 :=
        if mood = t1.moodA then { t1 with resultsA := t1.resultsA ++ [engagement] }
        else if mood = t1.moodB then { t1 with resultsB := t1.resultsB ++ [engagement] }
        else t1
      let st1 := { st with currentABTest := some t2 }
      if 50 ≤ t2.sessionCount then completeABTest st1 now else st1

/-! ### Learning loop (`recordOutcome`, `updatePatterns`) -/

/-- The history-store append of `recordOutcome`: push, then — whenever the
length exceeds 1000 — keep only the last 800 entries (`slice(-800)`). -/
def pushTruncate (db : List LearningRecord) (record : LearningRecord) :
    List LearningRecord :=
  let db1 := db ++ [record]
  if 1000 < db1.length then db1.drop (db1.length - 800) else db1

/-- The neural target vector of `recordOutcome`: all zeros, except that a
vocabulary mood puts the observed engagement in its slot. -/
def moodTargetOutputs (appliedMood : String) (engagement : ℚ) : List ℚ :=
  match moodMappings appliedMood with
  | some moodIdx => (List.replicate 5 (0 : ℚ)).set moodIdx engagement
  | none => List.replicate 5 0

/-- The exponential-moving-average step applied to a relevant pattern's
success rate in `updatePatterns` (`alpha = 0.1`):
`(1 - alpha) * successRate + alpha * engagement`. -/
def emaUpdate (successRate engagement : ℚ) : ℚ :=
  (1 - 1/10) * successRate + (1/10) * engagement

/-- The per-pattern effect of the `relevantPatterns.forEach` in
`updatePatterns`: patterns recommending the applied mood whose conditions
match get their success rate EMA-updated and their `lastUpdated` stamped. -/
def updateOnePattern (context : ContextData) (appliedMood : String)
    (engagement now : ℚ) (pattern : Pattern) : Pattern :=
  if pattern.recommendedMood = appliedMood ∧ patternMatches pattern context then
    { pattern with successRate := emaUpdate pattern.successRate engagement,
                   lastUpdated := now }
  else pattern

def hasMatchingPattern (patterns : List Pattern) (context : ContextData)
    (mood : String) : Bool :=
  patterns.any fun pattern =>
    pattern.recommendedMood = mood && patternMatches pattern context

/-- `extractConditions`: salient features of the context (extreme people
count, extreme audio energy, the time bucket). -/
def extractConditions (context : ContextData) : List Condition :=
  let conditions : List Condition := []
  let conditions :=
    match context.vision with
    | some v =>
      if 20 < v.peopleCount then
        conditions ++ [⟨"vision.peopleCount", .gt, .num 15⟩]
      else if v.peopleCount < 5 then
        conditions ++ [⟨"vision.peopleCount", .lt, .num 8⟩]
      else conditions
    | none => conditions
  let conditions :=
    match context.audio with
    | some a =>
      if 7/10 < a.energy then
        conditions ++ [⟨"audio.energy", .gt, .num (3/5)⟩]
      else if a.energy < 3/10 then
        conditions ++ [⟨"audio.energy", .lt, .num (2/5)⟩]
      else conditions
    | none => conditions
  conditions ++ [⟨"environmental.timeOfDay", .eq,
    .str (timeOfDayStr context.environmental.timeOfDay)⟩]

/-- `createNewPattern` (`id` is the `learned_${Date.now()}_${random}` string,
passed in): append a hybrid pattern with confidence 0.6 and the engagement as
initial success rate; past 50 patterns, keep the best 40 by success rate then
recency (the JS comparator `b.successRate - a.successRate ||
b.lastUpdated - a.lastUpdated`). -/
def createNewPattern (patterns : List Pattern) (context : ContextData)
    (mood : String) (engagement now : ℚ) (newId : String) : List Pattern :=
  let newPattern : Pattern :=
    { id := newId, type := .hybrid, conditions := extractConditions context,
      recommendedMood := mood, confidence := 3/5, successRate := engagement,
      lastUpdated := now }
  let patterns1 := patterns ++ [newPattern]
  if 50 < patterns1.length then
    (patterns1.mergeSort fun a b =>
      decide (b.successRate < a.successRate ∨
        (a.successRate = b.successRate ∧ b.lastUpdated ≤ a.lastUpdated))).take 40
  else patterns1

/-- `updatePatterns`: EMA-update every relevant pattern, then synthesise a new
pattern for a high-engagement outcome (> 0.8) not covered by any matching
pattern for that mood. -/
def updatePatterns (patterns : List Pattern) (context : ContextData)
    (appliedMood : String) (engagement now : ℚ) (newId : String) : List Pattern :=
  let updated := patterns.map (updateOnePattern context appliedMood engagement now)
  if 4/5 < engagement ∧ ¬ hasMatchingPattern updated context appliedMood then
    createNewPattern updated context appliedMood engagement now newId
  else updated

/-- `recordOutcome`: append to the history store (with truncation), train the
network toward the applied mood's engagement, update the pattern store.  No
vocabulary validation happens anywhere on `appliedMood`. -/
def recordOutcome (σ : ℚ → ℚ) (st : AdvancedMoodAI) (context : ContextData)
    (appliedMood : String) (outcome : Outcome) (now : ℚ) (newPatternId : String) :
    AdvancedMoodAI :=
  let learningDatabase := pushTruncate st.learningDatabase
    { context := context, appliedMood := appliedMood, outcome := outcome,
      timestamp := now }
  let inputs := contextToInputs context
  let targetOutputs := moodTargetOutputs appliedMood outcome.engagement
  let neuralNetwork := st.neuralNetwork.train σ inputs targetOutputs
  let patterns := updatePatterns st.patterns context appliedMood
    outcome.engagement now newPatternId
  { st with learningDatabase := learningDatabase,
            neuralNetwork := neuralNetwork, patterns := patterns }

/-! ### Constructor, reset, import (`initializePatterns`,
`generateSampleLearningData`, `resetLearning`, `importLearningData`) -/

/-- The three seed patterns installed by `initializePatterns`. -/
def initializePatterns (now : ℚ) : List Pattern :=
  [ { id := "morning_calm", type := .temporal,
      conditions := [⟨"environmental.timeOfDay", .eq, .str "morning"⟩],
      recommendedMood := "Peaceful", confidence := 7/10, successRate := 4/5,
      lastUpdated := now },
    { id := "busy_social", type := .crowd,
      conditions := [⟨"vision.peopleCount", .gt, .num 15⟩],
      recommendedMood := "Social", confidence := 4/5, successRate := 3/4,
      lastUpdated := now },
    { id := "high_energy_music", type := .audio,
      conditions := [⟨"audio.energy", .gt, .num (7/10)⟩,
                     ⟨"audio.musical", .gt, .num (3/5)⟩],
      recommendedMood := "Energetic", confidence := 9/10, successRate := 17/20,
      lastUpdated := now } ]

/-- One record of `generateSampleLearningData`; `durRand index` is the
`Math.random()` draw for its duration. -/
def sampleRecord (now : ℚ) (durRand : ℕ → ℚ) (index : ℕ) (time : TimeOfDay)
    (people energy : ℚ) (mood : String) (engagement : ℚ) : LearningRecord :=
  { context :=
    { vision := some
        { peopleCount := people, avgMovement := energy,
          crowdDensity := people / 50, lastUpdate := now },
      audio := some
        { energy := energy, volumeLevel := energy * (4/5),
          spectralCentroid := 1000 + energy * 2000,
          conversational := if 10 < people then 7/10 else 3/10,
          musical := if 3/5 < energy then 4/5 else 1/5,
          complexity := energy, lastUpdate := now },
      environmental :=
        { timeOfDay := time,
          dayOfWeek := if index % 2 = 0 then .weekday else .weekend,
          season := .spring, weather := some .sunny, specialEvents := none },
      timestamp := now - (index : ℚ) * 3600000 },
    appliedMood := mood,
    outcome :=
      { engagement := engagement, duration := 300 + durRand index * 600,
        audienceGrowth := (engagement - 1/2) * (2/5),
        feedback := engagement * (9/10) },
    timestamp := now - (index : ℚ) * 3600000 }

/-- `generateSampleLearningData` (called by `loadLearningData` from the
constructor): exactly five preloaded sample records. -/
def generateSampleLearningData (now : ℚ) (durRand : ℕ → ℚ) : List LearningRecord :=
  [ sampleRecord now durRand 0 .morning 5 (3/10) "Peaceful" (4/5),
    sampleRecord now durRand 1 .afternoon 15 (3/5) "Social" (3/4),
    sampleRecord now durRand 2 .evening 25 (4/5) "Energetic" (9/10),
    sampleRecord now durRand 3 .morning 8 (1/5) "Contemplative" (17/20),
    sampleRecord now durRand 4 .evening 12 (1/2) "Mysterious" (7/10) ]

/-- The constructor: fresh (random) network, the three seed patterns, the five
sample learning records. -/
def AdvancedMoodAI.new (net : MoodNeuralNetwork) (now : ℚ) (durRand : ℕ → ℚ) :
    AdvancedMoodAI :=
  { sessionHistory := [],
    learningDatabase := generateSampleLearningData now durRand,
    patterns := initializePatterns now, neuralNetwork := net, abTests := [],
    currentABTest := none }

/-- `resetLearning`: clear the stores, re-install the seed patterns (but NOT
the sample learning data — `loadLearningData` is not called again), fresh
network; the active A/B test is left untouched by the source. -/
def resetLearning (st : AdvancedMoodAI) (net : MoodNeuralNetwork) (now : ℚ) :
    AdvancedMoodAI :=
  { st with learningDatabase := [], patterns := initializePatterns now,
            abTests := [], neuralNetwork := net }

/-- The argument of `importLearningData`; `none` models an absent field.  A
present-but-empty array is truthy in JS, so `some []` replaces the store with
an empty one. -/
structure LearningDataBlob where
  patterns : Option (List Pattern)
  learningDatabase : Option (List LearningRecord)
  abTests : Option (List ABTestResult)

/-- `importLearningData`. -/
def importLearningData (st : AdvancedMoodAI) (data : LearningDataBlob) :
    AdvancedMoodAI :=
  let st1 := match data.patterns with
    | some ps => { st with patterns := ps }
    | none => st
  let st2 := match data.learningDatabase with
    | some db => { st1 with learningDatabase := db }
    | none => st1
  match data.abTests with
  | some ts => { st2 with abTests := ts }
  | none => st2

/-- A concrete all-zero 5-8-5 network, used as the fixed network of concrete test states. -/
def zeroRow8 : List ℚ := [0, 0, 0, 0, 0, 0, 0, 0]

def zeroRow5 : List ℚ := [0, 0, 0, 0, 0]

def zeroNet : MoodNeuralNetwork :=
  { weights := [[zeroRow8, zeroRow8, zeroRow8, zeroRow8, zeroRow8],
                [zeroRow5, zeroRow5, zeroRow5, zeroRow5,
                 zeroRow5, zeroRow5, zeroRow5, zeroRow5]],
    biases := [zeroRow8, zeroRow5] }

/-- A context with both sensors offline (morning weekday, no weather). -/
def plainCtx : ContextData :=
  { vision := none, audio := none,
    environmental := { timeOfDay := .morning, dayOfWeek := .weekday,
                       season := .spring, weather := none, specialEvents := none },
    timestamp := 0 }

/-- A context with both vision and audio present. -/
def fullCtx : ContextData :=
  { vision := some { peopleCount := 10, avgMovement := 1/2, crowdDensity := 1/5,
                     lastUpdate := 0 },
    audio := some { energy := 1/2, volumeLevel := 2/5, spectralCentroid := 1000,
                    conversational := 1/2, musical := 1/2, complexity := 1/2,
                    lastUpdate := 0 },
    environmental := { timeOfDay := .morning, dayOfWeek := .weekday,
                       season := .spring, weather := some .sunny,
                       specialEvents := none },
    timestamp := 0 }

/-- The freshly constructed engine used in concrete scenarios (zero network,
clock at 0, all random draws 0). -/
def baseState : AdvancedMoodAI := AdvancedMoodAI.new zeroNet 0 fun _ => 0

/-- A state with all stores empty, as after `resetLearning` minus the seed
patterns; used to run fully concrete A/B scenarios. -/
def emptyState : AdvancedMoodAI :=
  { sessionHistory := [], learningDatabase := [], patterns := [],
    neuralNetwork := zeroNet, abTests := [], currentABTest := none }

/-- The growth profile of the history store: push one, truncate to 800 once
the size passes 1000. -/
def pushTruncateSize (n : ℕ) : ℕ := if 1000 < n + 1 then 800 else n + 1

/-- 1050 insertion records with distinct increasing timestamps. -/
def c3Records : List LearningRecord :=
  (List.range 1050).map fun (i : ℕ) =>
    { context := plainCtx, appliedMood := "Energetic",
      outcome := { engagement := 1/2, duration := 300, audienceGrowth := 0,
                   feedback := 1/2 },
      timestamp := (i : ℚ) }

/-- The C6 scenario: start a test on the empty-store engine, record 30 results
for `"Energetic"` at engagement 0.9, then 20 for `"Social"` at 0.5 (the 50th
call auto-completes the test). -/
def c6State : AdvancedMoodAI :=
  (fun s => recordABTestResult s "ab_100_x" "Social" (1/2) 7)^[20]
    ((fun s => recordABTestResult s "ab_100_x" "Energetic" (9/10) 7)^[30]
      (startABTest emptyState "Energetic" "Social" "lobby" "ab_100_x"))

/-- The C5 scenario: a completed test both of whose arms saw only engagement
0 samples, so both arm means are 0. -/
def c5State : AdvancedMoodAI :=
  (fun s => recordABTestResult s "ab_0_y" "B" 0 3)^[20]
    ((fun s => recordABTestResult s "ab_0_y" "A" 0 3)^[30]
      (startABTest emptyState "A" "B" "ctx" "ab_0_y"))

/-- The C9 scenario: 50 results recorded with a mood that is neither arm, so
the test completes with `sampleSize = 50` and no samples in either arm. -/
def c9State : AdvancedMoodAI :=
  (fun s => recordABTestResult s "ab_0_z" "Contemplative" 1 5)^[50]
    (startABTest emptyState "Energetic" "Social" "lobby" "ab_0_z")

/-- The state hypotheses under which `predictOptimalMood` is analysed: the
network has the constructor's two-layer shape with five output columns, and
the stored pattern scores and engagement outcomes are nonnegative (pattern
confidences/success rates live in `[0,1]` and engagements in `[0,1]` at every
boundary of the source; only nonnegativity is needed). -/
def ValidState (st : AdvancedMoodAI) : Prop :=
  st.neuralNetwork.weights.length = 2 ∧
  ((st.neuralNetwork.weights.getD 1 []).getD 0 []).length = 5 ∧
  (∀ p ∈ st.patterns, 0 ≤ p.successRate ∧ 0 ≤ p.confidence) ∧
  (∀ r ∈ st.learningDatabase, 0 ≤ r.outcome.engagement)

/-- States reachable through the public mutating API.  `importLearningData`
is restricted to blobs that do not install an empty pattern array (the
unrestricted import is the counterexample to C10). -/
inductive Reachable : AdvancedMoodAI → Prop
  | new (net : MoodNeuralNetwork) (now : ℚ) (durRand : ℕ → ℚ) :
      Reachable (AdvancedMoodAI.new net now durRand)
  | record (st : AdvancedMoodAI) (σ : ℚ → ℚ) (context : ContextData)
      (appliedMood : String) (outcome : Outcome) (now : ℚ) (newPatternId : String) :
      Reachable st →
      Reachable (recordOutcome σ st context appliedMood outcome now newPatternId)
  | startAB (st : AdvancedMoodAI) (moodA moodB context testId : String) :
      Reachable st → Reachable (startABTest st moodA moodB context testId)
  | recordAB (st : AdvancedMoodAI) (testId mood : String) (engagement now : ℚ) :
      Reachable st → Reachable (recordABTestResult st testId mood engagement now)
  | reset (st : AdvancedMoodAI) (net : MoodNeuralNetwork) (now : ℚ) :
      Reachable st → Reachable (resetLearning st net now)
  | importData (st : AdvancedMoodAI) (data : LearningDataBlob) :
      Reachable st →
      (data.patterns = none ∨ ∃ ps, data.patterns = some ps ∧ ps ≠ []) →
      Reachable (importLearningData st data)

/-! ### Generic list lemmas -/

theorem list_set_getD_self {α : Type} (l : List α) (n : ℕ) (d : α) :
    l.set n (l.getD n d) = l := by
  induction l generalizing n with
  | nil => simp
  | cons a t ih =>
    cases n with
    | zero => simp [List.getD]
    | succ m => simp [List.getD] at ih ⊢; exact ih m

theorem list_getD_mem_or {α : Type} (l : List α) (n : ℕ) (d : α) :
    l.getD n d ∈ l ∨ l.getD n d = d := by
  induction l generalizing n with
  | nil => simp [List.getD]
  | cons a t ih =>
    cases n with
    | zero => left; simp [List.getD]
    | succ m =>
      rcases ih m with h | h
      · left; simp [List.getD] at h ⊢; right; simpa using h
      · right; simpa [List.getD] using h

theorem list_getD_bounds {l : List ℚ} (lo hi : ℚ)
    (hd : lo ≤ 0 ∧ 0 ≤ hi) (h : ∀ x ∈ l, lo ≤ x ∧ x ≤ hi) (n : ℕ) :
    lo ≤ l.getD n 0 ∧ l.getD n 0 ≤ hi := by
  rcases list_getD_mem_or l n 0 with hm | he
  · exact h _ hm
  · rw [he]; exact hd

theorem list_getD_zero_mem {α : Type} {l : List α} (h : l ≠ []) (d : α) :
    l.getD 0 d ∈ l := by
  cases l with
  | nil => exact absurd rfl h
  | cons a t => simp [List.getD]

theorem list_getD_eq_getElem {α : Type} (l : List α) (i : ℕ) (d : α)
    (h : i < l.length) : l.getD i d = l[i] := by
  rw [List.getD_eq_getElem?_getD, List.getElem?_eq_getElem h]; rfl

theorem list_getD_eq_default {α : Type} (l : List α) (i : ℕ) (d : α)
    (h : l.length ≤ i) : l.getD i d = d := by
  rw [List.getD_eq_getElem?_getD, List.getElem?_eq_none h]; rfl

theorem list_getD_mapIdx {α β : Type} (g : ℕ → α → β) (l : List α) (i : ℕ)
    (d : β) (h : i < l.length) (d' : α) :
    (l.mapIdx g).getD i d = g i (l.getD i d') := by
  rw [list_getD_eq_getElem _ _ _ (by simpa using h), List.getElem_mapIdx,
    list_getD_eq_getElem _ _ _ h]

theorem list_getD_map {α β : Type} (f : α → β) (l : List α) (j : ℕ) (d : β)
    (d' : α) (h : j < l.length) : (l.map f).getD j d = f (l.getD j d') := by
  rw [list_getD_eq_getElem _ _ _ (by simpa using h), List.getElem_map,
    list_getD_eq_getElem _ _ _ h]

theorem list_mapIdx_id {α : Type} (g : ℕ → α → α) (l : List α)
    (h : ∀ i a, g i a = a) : l.mapIdx g = l := by
  rw [List.mapIdx_eq_enum_map]
  have he : List.map (Function.uncurry g) l.enum = List.map Prod.snd l.enum :=
    List.map_congr_left fun a _ => h a.1 a.2
  rw [he, List.enum_map_snd]

theorem list_getD_zero_set_one {α : Type} (l : List α) (x d : α) :
    (l.set 1 x).getD 0 d = l.getD 0 d := by
  cases l <;> rfl

theorem mapIdx_getD_untouched (g : ℕ → ℚ → ℚ) (row : List ℚ) (i : ℕ)
    (hg : ∀ w, g i w = w) : (row.mapIdx g).getD i 0 = row.getD i 0 := by
  by_cases h : i < row.length
  · rw [list_getD_mapIdx g row i 0 h 0, hg]
  · rw [list_getD_eq_default _ _ _ (by simpa using not_lt.mp h),
      list_getD_eq_default _ _ _ (not_lt.mp h)]

theorem list_getD_getD_map_frame (f : List ℚ → List ℚ) (L : List (List ℚ))
    (j i : ℕ) (hf : ∀ row, (f row).getD i 0 = row.getD i 0) :
    ((L.map f).getD j []).getD i 0 = (L.getD j []).getD i 0 := by
  by_cases hj : j < L.length
  · rw [list_getD_map _ _ _ _ [] hj, hf]
  · have hj' : L.length ≤ j := not_lt.mp hj
    rw [list_getD_eq_default (L.map f) _ _ (by simpa using hj'),
      list_getD_eq_default L _ _ hj']

/-! ### Claim C8 — the frame of `MoodNeuralNetwork.train` -/

/-- Claim C8: for every input and target vector, `train` modifies only
output-layer weights — the input-to-hidden weight matrix (`weights[0]`) and
both bias vectors are unchanged — and it touches column `i` of the
output-layer weights only when `|target[i] - prediction[i]| > 0.1`; a call
where every output error has absolute value at most `0.1` leaves the entire
network unchanged. -/
theorem train_frame (σ : ℚ → ℚ) (net : MoodNeuralNetwork)
    (inputs targets : List ℚ) :
    ((net.train σ inputs targets).weights.getD 0 [] = net.weights.getD 0 []) ∧
    ((net.train σ inputs targets).biases = net.biases) ∧
    (∀ i, |(trainErrors σ net inputs targets).getD i 0| ≤ 1/10 →
      ∀ j, (((net.train σ inputs targets).weights.getD 1 []).getD j []).getD i 0 =
        ((net.weights.getD 1 []).getD j []).getD i 0) ∧
    ((∀ i < targets.length,
        |(trainErrors σ net inputs targets).getD i 0| ≤ 1/10) →
      net.train σ inputs targets = net) := by
  have htrain : net.train σ inputs targets =
      { net with weights := net.weights.set 1 ((net.weights.getD 1 []).map fun row =>
          row.mapIdx fun i w =>
            if 1/10 < |(trainErrors σ net inputs targets).getD i 0| then
              w + learningRate * (trainErrors σ net inputs targets).getD i 0 *
                (net.predict σ inputs).getD i 0
            else w) } := rfl
  refine ⟨?_, rfl, ?_, ?_⟩
  · rw [htrain]
    exact list_getD_zero_set_one _ _ _
  · intro i hi j
    rw [htrain]
    by_cases hW : net.weights.length ≤ 1
    · rw [List.set_eq_of_length_le hW]
    · have h1 : 1 < net.weights.length := not_le.mp hW
      have hset : ((net.weights.set 1 ((net.weights.getD 1 []).map fun row =>
          row.mapIdx fun i w =>
            if 1/10 < |(trainErrors σ net inputs targets).getD i 0| then
              w + learningRate * (trainErrors σ net inputs targets).getD i 0 *
                (net.predict σ inputs).getD i 0
            else w)).getD 1 []) = (net.weights.getD 1 []).map fun row =>
          row.mapIdx fun i w =>
            if 1/10 < |(trainErrors σ net inputs targets).getD i 0| then
              w + learningRate * (trainErrors σ net inputs targets).getD i 0 *
                (net.predict σ inputs).getD i 0
            else w := by
        rw [list_getD_eq_getElem _ 1 _ (by simpa using h1), List.getElem_set_self]
      rw [hset]
      exact list_getD_getD_map_frame _ _ j i fun row =>
        mapIdx_getD_untouched _ row i fun w => if_neg (not_lt.mpr hi)
  · intro hsmall
    rw [htrain]
    have herrlen : (trainErrors σ net inputs targets).length = targets.length :=
      List.length_mapIdx
    have hall : ∀ (i : ℕ) (w : ℚ),
        (if 1/10 < |(trainErrors σ net inputs targets).getD i 0| then
          w + learningRate * (trainErrors σ net inputs targets).getD i 0 *
            (net.predict σ inputs).getD i 0
        else w) = w := by
      intro i w
      by_cases hi : i < targets.length
      · exact if_neg (not_lt.mpr (hsmall i hi))
      · rw [list_getD_eq_default _ _ _ (by rw [herrlen]; exact not_lt.mp hi)]
        norm_num
    have hmap : (net.weights.getD 1 []).map (fun row => row.mapIdx fun i w =>
        if 1/10 < |(trainErrors σ net inputs targets).getD i 0| then
          w + learningRate * (trainErrors σ net inputs targets).getD i 0 *
            (net.predict σ inputs).getD i 0
        else w) = net.weights.getD 1 [] := by
      have := List.map_congr_left (l := net.weights.getD 1 [])
        (f := fun row => row.mapIdx fun i w =>
          if 1/10 < |(trainErrors σ net inputs targets).getD i 0| then
            w + learningRate * (trainErrors σ net inputs targets).getD i 0 *
              (net.predict σ inputs).getD i 0
          else w)
        (g := fun row => row)
        (fun row _ => list_mapIdx_id _ row hall)
      simpa using this
    rw [hmap, list_set_getD_self]

/-- Witness for C8: with the constant activation `1/2` on the all-zero
network, targets of `1/2` everywhere give all-zero errors, and training is the
identity. -/
theorem train_frame_witness :
    (∀ i < ([1/2, 1/2, 1/2, 1/2, 1/2] : List ℚ).length,
      |(trainErrors (fun _ => (1:ℚ)/2) zeroNet [0, 0, 0, 0, 0]
        [1/2, 1/2, 1/2, 1/2, 1/2]).getD i 0| ≤ 1/10) ∧
    MoodNeuralNetwork.train (fun _ => (1:ℚ)/2) zeroNet [0, 0, 0, 0, 0]
      [1/2, 1/2, 1/2, 1/2, 1/2] = zeroNet := by
  have herr : trainErrors (fun _ => (1:ℚ)/2) zeroNet [0, 0, 0, 0, 0]
      [1/2, 1/2, 1/2, 1/2, 1/2] = [0, 0, 0, 0, 0] := by
    simp [trainErrors, MoodNeuralNetwork.predict, zeroNet, zeroRow8, zeroRow5,
      List.range_succ, List.getD, List.mapIdx_cons]
  refine ⟨?_, ?_⟩
  · intro i hi
    simp only [List.length_cons, List.length_nil] at hi
    interval_cases i <;> norm_num [herr, List.getD]
  · refine (train_frame (fun _ => (1:ℚ)/2) zeroNet [0, 0, 0, 0, 0]
      [1/2, 1/2, 1/2, 1/2, 1/2]).2.2.2 ?_
    intro i hi
    simp only [List.length_cons, List.length_nil] at hi
    interval_cases i <;> norm_num [herr, List.getD]

/-! ### Claim C2 — symmetry and (failed) bounds of `calculateContextSimilarity` -/

/-- Counterexample to C2 as stated: on a context with both vision and audio
present, the self-similarity is `1.7`, so the result is neither `1` nor inside
`[0,1]` (each sensor channel contributes the sum of two per-feature
similarities — up to 2 — against a weight counted only once in `factors`). -/
theorem calculateContextSimilarity_self_counterexample :
    calculateContextSimilarity fullCtx fullCtx = 17/10 ∧
    ¬ (calculateContextSimilarity fullCtx fullCtx ≤ 1) := by
  have h : calculateContextSimilarity fullCtx fullCtx = 17/10 := by
    norm_num [calculateContextSimilarity, fullCtx]
  exact ⟨h, by rw [h]; norm_num⟩

/-- Claim C2 (amended): `calculateContextSimilarity` is symmetric, but its
value is not confined to `[0,1]`: the self-similarity equals
`(0.8·[vision] + 0.6·[audio] + 0.3) / (0.4·[vision] + 0.3·[audio] + 0.3)` —
that is `1` exactly when vision and audio are both absent, `11/7` with vision
only, `3/2` with audio only, and `17/10` with both present. -/
theorem calculateContextSimilarity_symm_self :
    (∀ A B : ContextData,
      calculateContextSimilarity A B = calculateContextSimilarity B A) ∧
    (∀ A : ContextData,
      calculateContextSimilarity A A =
        ((if A.vision.isSome then (4/5 : ℚ) else 0) +
         (if A.audio.isSome then (3/5 : ℚ) else 0) + 3/10) /
        ((if A.vision.isSome then (2/5 : ℚ) else 0) +
         (if A.audio.isSome then (3/10 : ℚ) else 0) + 3/10)) := by
  constructor
  · intro A B
    have ht : (B.environmental.timeOfDay = A.environmental.timeOfDay) =
        (A.environmental.timeOfDay = B.environmental.timeOfDay) :=
      propext ⟨Eq.symm, Eq.symm⟩
    have hd : (B.environmental.dayOfWeek = A.environmental.dayOfWeek) =
        (A.environmental.dayOfWeek = B.environmental.dayOfWeek) :=
      propext ⟨Eq.symm, Eq.symm⟩
    rcases hva : A.vision with _ | v1 <;> rcases hvb : B.vision with _ | v2 <;>
      rcases haa : A.audio with _ | a1 <;> rcases hab : B.audio with _ | a2 <;>
        simp only [calculateContextSimilarity, hva, hvb, haa, hab, ht, hd,
          abs_sub_comm]
  · intro A
    rcases hva : A.vision with _ | v <;> rcases haa : A.audio with _ | a <;>
      simp [calculateContextSimilarity, hva, haa] <;> norm_num

/-! ### Claim C7 — success-rate EMA convergence under engagement 1.0 -/

/-- Claim C7: the pattern-store update applies
`successRate := (1-0.1)·successRate + 0.1·engagement` to every relevant
pattern, and iterating that update with engagement 1.0 from any start in
`[0,1]` is monotonically non-decreasing, stays in `[0,1]`, and converges to
1.0 (the gap to 1 shrinks by a factor 9/10 each step, hence below
any positive epsilon eventually). -/
theorem emaUpdate_one_convergence (s : ℚ) (h0 : 0 ≤ s) (h1 : s ≤ 1) :
    (∀ (p : Pattern) (ctx : ContextData) (mood : String) (e now : ℚ),
      p.recommendedMood = mood → patternMatches p ctx = true →
      (updateOnePattern ctx mood e now p).successRate = emaUpdate p.successRate e) ∧
    (∀ n : ℕ,
      1 - (fun x => emaUpdate x 1)^[n] s = (9/10)^n * (1 - s) ∧
      (fun x => emaUpdate x 1)^[n] s ≤ (fun x => emaUpdate x 1)^[n+1] s ∧
      0 ≤ (fun x => emaUpdate x 1)^[n] s ∧
      (fun x => emaUpdate x 1)^[n] s ≤ 1) ∧
    (∀ ε : ℚ, 0 < ε → ∃ n : ℕ, 1 - (fun x => emaUpdate x 1)^[n] s < ε) := by
  have hgap : ∀ n : ℕ, 1 - (fun x => emaUpdate x 1)^[n] s = (9/10)^n * (1 - s) := by
    intro n
    induction n with
    | zero => simp
    | succ m ih =>
      rw [Function.iterate_succ_apply' (fun x => emaUpdate x 1) m s]
      generalize hy : (fun x => emaUpdate x 1)^[m] s = y at ih ⊢
      simp only [emaUpdate]
      have hstep : (1 : ℚ) - ((1 - 1/10) * y + (1/10) * 1) = (9/10) * (1 - y) := by
        ring
      rw [hstep, ih, pow_succ]
      ring
  have hlow : ∀ n : ℕ, 0 ≤ (fun x => emaUpdate x 1)^[n] s := by
    intro n
    induction n with
    | zero => simpa using h0
    | succ m ih =>
      rw [Function.iterate_succ_apply' (fun x => emaUpdate x 1) m s]
      generalize hy : (fun x => emaUpdate x 1)^[m] s = y at ih ⊢
      simp only [emaUpdate]
      linarith
  have hup : ∀ n : ℕ, (fun x => emaUpdate x 1)^[n] s ≤ 1 := by
    intro n
    have := hgap n
    have hpow : (0:ℚ) ≤ (9/10)^n * (1 - s) := by
      have : (0:ℚ) ≤ (9/10)^n := by positivity
      nlinarith
    linarith
  refine ⟨?_, ?_, ?_⟩
  · intro p ctx mood e now hmood hmatch
    simp [updateOnePattern, hmood, hmatch]
  · intro n
    refine ⟨hgap n, ?_, hlow n, hup n⟩
    have hyle := hup n
    rw [Function.iterate_succ_apply' (fun x => emaUpdate x 1) n s]
    generalize hy : (fun x => emaUpdate x 1)^[n] s = y at hyle ⊢
    simp only [emaUpdate]
    linarith
  · intro ε hε
    obtain ⟨n, hn⟩ := exists_pow_lt_of_lt_one hε (by norm_num : (9:ℚ)/10 < 1)
    refine ⟨n, ?_⟩
    rw [hgap n]
    have hpow : (0:ℚ) ≤ (9/10)^n := by positivity
    have hle := mul_le_of_le_one_right hpow (by linarith : 1 - s ≤ 1)
    linarith

/-- Witness for C7: start at success rate 1/2; after three updates the gap to
1 is exactly (9/10)^3 of the initial gap. -/
theorem emaUpdate_one_convergence_witness :
    (0 ≤ (1/2 : ℚ)) ∧ ((1/2 : ℚ) ≤ 1) ∧
    (1 - (fun x => emaUpdate x 1)^[3] (1/2) = (9/10)^3 * (1 - 1/2)) :=
  ⟨by norm_num, by norm_num,
    ((emaUpdate_one_convergence (1/2) (by norm_num) (by norm_num)).2.1 3).1⟩

/-! ### Claim C3 — history-store boundedness and eviction shape -/

theorem pushTruncate_length (db : List LearningRecord) (r : LearningRecord) :
    (pushTruncate db r).length = pushTruncateSize db.length := by
  have hlen : (db ++ [r]).length = db.length + 1 := by simp
  simp only [pushTruncate, pushTruncateSize, hlen]
  by_cases h : 1000 < db.length + 1
  · rw [if_pos h, if_pos h, List.length_drop, hlen]
    omega
  · rw [if_neg h, if_neg h, hlen]

theorem pushTruncateSize_linear (n : ℕ) :
    ∀ a : ℕ, a + n ≤ 1000 → pushTruncateSize^[n] a = a + n := by
  induction n with
  | zero => intro a _; simp
  | succ m ih =>
    intro a ha
    rw [Function.iterate_succ_apply]
    have hstep : pushTruncateSize a = a + 1 := by
      unfold pushTruncateSize
      rw [if_neg (by omega)]
    rw [hstep, ih (a + 1) (by omega)]
    omega

theorem pushTruncateSize_iterate_1050 : pushTruncateSize^[1050] 0 = 849 := by
  have e : (1050 : ℕ) = 49 + (1 + 1000) := by norm_num
  rw [e, Function.iterate_add_apply, Function.iterate_add_apply,
    pushTruncateSize_linear 1000 0 (by norm_num)]
  have h1 : pushTruncateSize^[1] (0 + 1000) = 800 := by
    simp [pushTruncateSize]
  rw [h1, pushTruncateSize_linear 49 800 (by norm_num)]

theorem pushTruncate_suffix (db : List LearningRecord) (r : LearningRecord)
    (pre : List LearningRecord) (h : db.IsSuffix pre) :
    (pushTruncate db r).IsSuffix (pre ++ [r]) := by
  obtain ⟨t, ht⟩ := h
  have h1 : (db ++ [r]).IsSuffix (pre ++ [r]) :=
    ⟨t, by rw [← List.append_assoc, ht]⟩
  unfold pushTruncate
  by_cases hc : 1000 < (db ++ [r]).length
  · rw [if_pos hc]
    exact (List.drop_suffix _ _).trans h1
  · rw [if_neg hc]; exact h1

theorem foldl_pushTruncate_suffix (rs : List LearningRecord)
    (acc pre : List LearningRecord) (h : acc.IsSuffix pre) :
    (rs.foldl pushTruncate acc).IsSuffix (pre ++ rs) := by
  induction rs generalizing acc pre with
  | nil => simpa using h
  | cons r t ih =>
    have hstep := ih (pushTruncate acc r) (pre ++ [r]) (pushTruncate_suffix acc r pre h)
    rw [List.foldl_cons]
    simpa [List.append_assoc] using hstep

theorem foldl_pushTruncate_length (rs : List LearningRecord)
    (acc : List LearningRecord) :
    (rs.foldl pushTruncate acc).length =
      rs.foldl (fun n _ => pushTruncateSize n) acc.length := by
  induction rs generalizing acc with
  | nil => rfl
  | cons r t ih => simp only [List.foldl_cons, pushTruncate_length, ih]

theorem foldl_const_iterate {α : Type} (f : ℕ → ℕ) (l : List α) (a : ℕ) :
    l.foldl (fun n _ => f n) a = f^[l.length] a := by
  induction l generalizing a with
  | nil => rfl
  | cons x t ih =>
    rw [List.foldl_cons, ih, List.length_cons, Function.iterate_succ_apply]

/-- Counterexample to C3 as stated: starting from an empty history store
(`resetLearning` clears it), 1050 `recordOutcome` calls leave 849 records,
not cap = 1000, because the source truncates with `slice(-800)` as soon as the
size exceeds 1000. -/
theorem recordOutcome_cap_counterexample :
    ((c3Records.foldl (fun st r => recordOutcome (fun _ => (1:ℚ)/2) st r.context
        r.appliedMood r.outcome r.timestamp "pid")
      (resetLearning baseState zeroNet 0)).learningDatabase).length = 849 ∧
    (849 : ℕ) ≠ 1000 := by
  have hfold : ∀ (rs : List LearningRecord) (st : AdvancedMoodAI),
      ((rs.foldl (fun st r => recordOutcome (fun _ => (1:ℚ)/2) st r.context
        r.appliedMood r.outcome r.timestamp "pid") st).learningDatabase) =
      rs.foldl pushTruncate st.learningDatabase := by
    intro rs
    induction rs with
    | nil => intro st; rfl
    | cons r t ih =>
      intro st
      rw [List.foldl_cons, List.foldl_cons, ih]
      rfl
  constructor
  · rw [hfold]
    have hdb : (resetLearning baseState zeroNet 0).learningDatabase = [] := rfl
    rw [hdb, foldl_pushTruncate_length, foldl_const_iterate]
    have hlen : c3Records.length = 1050 := by
      simp only [c3Records, List.length_map, List.length_range]
    rw [List.length_nil, hlen, pushTruncateSize_iterate_1050]
  · decide

/-- Claim C3 (amended): `recordOutcome` appends to the history store and, once
the size exceeds 1000, truncates to the newest 800 (`slice(-800)`) — so after
cap + 50 = 1050 insertions from an empty store the store holds 849 records
(not cap = 1000); the retained records always form a suffix of the insertion
sequence, i.e. eviction is oldest-first and never removes a record from the
middle. -/
theorem recordOutcome_bounded_suffix (rs : List LearningRecord)
    (h : rs.length = 1050) :
    (∀ (σ : ℚ → ℚ) (st : AdvancedMoodAI) (c : ContextData) (m : String)
        (o : Outcome) (now : ℚ) (id : String),
      (recordOutcome σ st c m o now id).learningDatabase =
        pushTruncate st.learningDatabase
          { context := c, appliedMood := m, outcome := o, timestamp := now }) ∧
    (rs.foldl pushTruncate []).IsSuffix rs ∧
    (rs.foldl pushTruncate []).length = 849 := by
  refine ⟨fun σ st c m o now id => rfl, ?_, ?_⟩
  · simpa using foldl_pushTruncate_suffix rs [] [] ⟨[], rfl⟩
  · rw [foldl_pushTruncate_length, foldl_const_iterate]
    rw [List.length_nil, h, pushTruncateSize_iterate_1050]

/-- Witness for C3 (amended) at the concrete 1050-record insertion sequence. -/
theorem recordOutcome_bounded_suffix_witness :
    c3Records.length = 1050 ∧ (c3Records.foldl pushTruncate []).length = 849 :=
  ⟨by simp only [c3Records, List.length_map, List.length_range],
    (recordOutcome_bounded_suffix c3Records
      (by simp only [c3Records, List.length_map, List.length_range])).2.2⟩

/-! ### Claim C4 — unknown moods are silently recorded, not rejected -/

/-- Counterexample to C4: `recordOutcome` with the out-of-vocabulary mood
`"Bogus"` does not leave the history store unchanged (and raises no error
anywhere) — the record is appended. -/
theorem recordOutcome_bogus_counterexample :
    (recordOutcome (fun _ => (1:ℚ)/2) baseState plainCtx "Bogus"
      { engagement := 1/2, duration := 300, audienceGrowth := 0, feedback := 1/2 }
      0 "pid").learningDatabase ≠ baseState.learningDatabase := by
  intro he
  have h : (recordOutcome (fun _ => (1:ℚ)/2) baseState plainCtx "Bogus"
      { engagement := 1/2, duration := 300, audienceGrowth := 0, feedback := 1/2 }
      0 "pid").learningDatabase =
      baseState.learningDatabase ++
        [{ context := plainCtx, appliedMood := "Bogus",
           outcome := { engagement := 1/2, duration := 300, audienceGrowth := 0,
                        feedback := 1/2 }, timestamp := 0 }] := by
    show pushTruncate baseState.learningDatabase _ = _
    unfold pushTruncate
    rw [if_neg]
    simp [baseState, AdvancedMoodAI.new, generateSampleLearningData]
  rw [h] at he
  have hlen := congrArg List.length he
  simp at hlen

/-- Claim C4 (amended): `recordOutcome` performs no vocabulary validation and
signals no error: with `appliedMood = "Bogus"` the record is appended to the
history store; the only special treatment of the unknown mood is that the
neural target vector stays all-zero (`moodMappings` yields `undefined`), while
the pattern store can even gain a new pattern recommending `"Bogus"` when the
engagement exceeds 0.8 and nothing matches. -/
theorem recordOutcome_bogus_recorded :
    (∀ (σ : ℚ → ℚ) (st : AdvancedMoodAI) (c : ContextData) (o : Outcome)
        (now : ℚ) (id : String),
      (recordOutcome σ st c "Bogus" o now id).learningDatabase =
        pushTruncate st.learningDatabase
          { context := c, appliedMood := "Bogus", outcome := o,
            timestamp := now }) ∧
    moodMappings "Bogus" = none ∧
    (∀ e : ℚ, moodTargetOutputs "Bogus" e = List.replicate 5 0) ∧
    (∀ (c : ContextData) (e now : ℚ) (id : String), 4/5 < e →
      updatePatterns [] c "Bogus" e now id =
        [{ id := id, type := .hybrid, conditions := extractConditions c,
           recommendedMood := "Bogus", confidence := 3/5, successRate := e,
           lastUpdated := now }]) := by
  refine ⟨fun σ st c o now id => rfl, by simp [moodMappings], ?_, ?_⟩
  · intro e
    simp [moodTargetOutputs, moodMappings]
  · intro c e now id he
    simp [updatePatterns, hasMatchingPattern, createNewPattern, he]

/-- Witness for C4 (amended): a high-engagement `"Bogus"` outcome on an empty
pattern store synthesises a `"Bogus"` pattern. -/
theorem recordOutcome_bogus_recorded_witness :
    ((4:ℚ)/5 < 9/10) ∧
    updatePatterns [] plainCtx "Bogus" (9/10) 0 "pid" =
      [{ id := "pid", type := .hybrid, conditions := extractConditions plainCtx,
         recommendedMood := "Bogus", confidence := 3/5, successRate := 9/10,
         lastUpdated := 0 }] :=
  ⟨by norm_num,
    recordOutcome_bogus_recorded.2.2.2 plainCtx (9/10) 0 "pid" (by norm_num)⟩

/-! ### A/B test lifecycle lemmas -/

theorem recordABTestResult_no_active (st : AdvancedMoodAI) (tid m : String)
    (e now : ℚ) (h : st.currentABTest = none) :
    recordABTestResult st tid m e now = st := by
  simp only [recordABTestResult, h]

theorem recordABTestResult_stale (st : AdvancedMoodAI) (t : ActiveABTest)
    (tid m : String) (e now : ℚ) (hact : st.currentABTest = some t)
    (hne : t.testId ≠ tid) :
    recordABTestResult st tid m e now = st := by
  simp only [recordABTestResult, hact]
  rw [if_pos hne]

theorem recordABTestResult_step (st : AdvancedMoodAI) (t : ActiveABTest)
    (tid m : String) (e now : ℚ) (hact : st.currentABTest = some t)
    (hid : t.testId = tid) :
    recordABTestResult st tid m e now =
      (fun t2 : ActiveABTest =>
        if 50 ≤ t2.sessionCount then
          completeABTest { st with currentABTest := some t2 } now
        else { st with currentABTest := some t2 })
      (if m = t.moodA then
        { t with sessionCount := t.sessionCount + 1, resultsA := t.resultsA ++ [e] }
      else if m = t.moodB then
        { t with sessionCount := t.sessionCount + 1, resultsB := t.resultsB ++ [e] }
      else { t with sessionCount := t.sessionCount + 1 }) := by
  simp only [recordABTestResult, hact]
  rw [if_neg (not_not_intro hid)]

theorem recordABTestResult_iterate_armA (tid mA mB cx : String) (e now : ℚ)
    (n : ℕ) :
    ∀ (st : AdvancedMoodAI) (sc : ℕ) (rA rB : List ℚ),
      st.currentABTest = some ⟨tid, mA, mB, cx, sc, rA, rB⟩ →
      sc + n ≤ 49 →
      (fun s => recordABTestResult s tid mA e now)^[n] st =
        { st with currentABTest := some ⟨tid, mA, mB, cx, sc + n, rA ++ List.replicate n e, rB⟩ } := by
  induction n with
  | zero =>
    intro st sc rA rB hact hcnt
    simp only [Function.iterate_zero, id_eq, Nat.add_zero, List.replicate_zero,
      List.append_nil]
    rw [← hact]
  | succ k ih =>
    intro st sc rA rB hact hcnt
    rw [Function.iterate_succ_apply]
    rw [recordABTestResult_step st ⟨tid, mA, mB, cx, sc, rA, rB⟩ tid mA e now
      hact rfl]
    dsimp only
    rw [if_pos rfl, if_neg (by omega : ¬ 50 ≤ sc + 1)]
    have ihh := ih ({ st with currentABTest := some ⟨tid, mA, mB, cx, sc + 1, rA ++ [e], rB⟩ })
      (sc + 1) (rA ++ [e]) rB rfl (by omega)
    rw [ihh]
    simp only [List.append_assoc, List.singleton_append, ← List.replicate_succ]
    have hsc : sc + 1 + k = sc + (k + 1) := by omega
    rw [hsc]

theorem recordABTestResult_iterate_armB (tid mA mB cx : String) (e now : ℚ)
    (hne : mB ≠ mA) (n : ℕ) :
    ∀ (st : AdvancedMoodAI) (sc : ℕ) (rA rB : List ℚ),
      st.currentABTest = some ⟨tid, mA, mB, cx, sc, rA, rB⟩ →
      sc + n ≤ 49 →
      (fun s => recordABTestResult s tid mB e now)^[n] st =
        { st with currentABTest := some ⟨tid, mA, mB, cx, sc + n, rA, rB ++ List.replicate n e⟩ } := by
  induction n with
  | zero =>
    intro st sc rA rB hact hcnt
    simp only [Function.iterate_zero, id_eq, Nat.add_zero, List.replicate_zero,
      List.append_nil]
    rw [← hact]
  | succ k ih =>
    intro st sc rA rB hact hcnt
    rw [Function.iterate_succ_apply]
    rw [recordABTestResult_step st ⟨tid, mA, mB, cx, sc, rA, rB⟩ tid mB e now
      hact rfl]
    dsimp only
    rw [if_neg hne, if_pos rfl, if_neg (by omega : ¬ 50 ≤ sc + 1)]
    have ihh := ih ({ st with currentABTest := some ⟨tid, mA, mB, cx, sc + 1, rA, rB ++ [e]⟩ })
      (sc + 1) rA (rB ++ [e]) rfl (by omega)
    rw [ihh]
    simp only [List.append_assoc, List.singleton_append, ← List.replicate_succ]
    have hsc : sc + 1 + k = sc + (k + 1) := by omega
    rw [hsc]

theorem recordABTestResult_iterate_offarm (tid m mA mB cx : String)
    (e now : ℚ) (hA : m ≠ mA) (hB : m ≠ mB) (n : ℕ) :
    ∀ (st : AdvancedMoodAI) (sc : ℕ) (rA rB : List ℚ),
      st.currentABTest = some ⟨tid, mA, mB, cx, sc, rA, rB⟩ →
      sc + n ≤ 49 →
      (fun s => recordABTestResult s tid m e now)^[n] st =
        { st with currentABTest := some ⟨tid, mA, mB, cx, sc + n, rA, rB⟩ } := by
  induction n with
  | zero =>
    intro st sc rA rB hact hcnt
    simp only [Function.iterate_zero, id_eq, Nat.add_zero]
    rw [← hact]
  | succ k ih =>
    intro st sc rA rB hact hcnt
    rw [Function.iterate_succ_apply]
    rw [recordABTestResult_step st ⟨tid, mA, mB, cx, sc, rA, rB⟩ tid m e now
      hact rfl]
    dsimp only
    rw [if_neg hA, if_neg hB, if_neg (by omega : ¬ 50 ≤ sc + 1)]
    have ihh := ih ({ st with currentABTest := some ⟨tid, mA, mB, cx, sc + 1, rA, rB⟩ })
      (sc + 1) rA rB rfl (by omega)
    rw [ihh]
    have hsc : sc + 1 + k = sc + (k + 1) := by omega
    rw [hsc]

/-! ### Claim C5 — completion confidence: formula, bounds, and the missing
divide-by-zero guard -/

theorem jsAvg_replicate_zero (n : ℕ) (hn : n ≠ 0) :
    jsAvg (List.replicate n (0:ℚ)) = some 0 := by
  unfold jsAvg
  rw [if_neg (by simp [hn])]
  simp [List.sum_replicate]

theorem c5_state_eq :
    c5State = { emptyState with abTests := [⟨"ab_0_y", "A", "B", "ctx", "B",
      none, some 0, 50, parseTestIdDate "ab_0_y", 3⟩] } := by
  unfold c5State
  rw [recordABTestResult_iterate_armA "ab_0_y" "A" "B" "ctx" 0 3 30
    (startABTest emptyState "A" "B" "ctx" "ab_0_y") 0 [] [] rfl (by omega)]
  rw [show (20:ℕ) = 1 + 19 by norm_num, Function.iterate_add_apply]
  rw [recordABTestResult_iterate_armB "ab_0_y" "A" "B" "ctx" 0 3
    (by simp) 19 _ 30 (List.replicate 30 0) [] rfl (by omega)]
  rw [Function.iterate_one]
  rw [recordABTestResult_step _ ⟨"ab_0_y", "A", "B", "ctx", 49,
    List.replicate 30 0, [] ++ List.replicate 19 0⟩ "ab_0_y" "B" 0 3 rfl rfl]
  dsimp only
  rw [if_neg (by simp : ("B" : String) ≠ "A"), if_pos rfl,
    if_pos (by omega : 50 ≤ 49 + 1)]
  simp only [completeABTest]
  rw [jsAvg_replicate_zero 30 (by omega)]
  have havgB : jsAvg (([] ++ List.replicate 19 (0:ℚ)) ++ [0]) = some 0 := by
    have : (([] ++ List.replicate 19 (0:ℚ)) ++ [0]) = List.replicate 20 0 := by
      simp [List.replicate_succ']
    rw [this]
    exact jsAvg_replicate_zero 20 (by omega)
  rw [havgB]
  simp only [abWinnerMood, abConfidenceLevel]
  rw [if_neg (by norm_num : ¬ (0:ℚ) < 0), if_pos (by simp : max (0:ℚ) 0 = 0)]
  simp [startABTest, emptyState, updatePatternsFromABTest]

/-- Counterexample to C5: a test both of whose arms saw only engagement-0
samples completes with `confidenceLevel = NaN` (modelled `none`) — the
division `|0-0| / max(0,0)` is not guarded, so the confidence is not 0. -/
theorem completeABTest_zero_means_counterexample :
    c5State.abTests.map (fun r => r.confidenceLevel) = [none] ∧
    (none : Option ℚ) ≠ some 0 := by
  rw [c5_state_eq]
  exact ⟨rfl, by simp⟩

/-- Claim C5 (amended): the winner is the arm with the higher mean (arm B on
ties and whenever a mean is `NaN`); the confidence is `|a-b| / max(a,b)`,
which lies in `[0,1]` whenever both means are defined, nonnegative and not
both 0 — but the division is NOT guarded: when both arm means are 0, or an arm
received no samples (mean `NaN`), the confidence is non-finite (`none`),
never 0. -/
theorem completeABTest_confidence_props :
    (∀ (t : ActiveABTest) (a b : ℚ), b < a →
      abWinnerMood t (some a) (some b) = t.moodA) ∧
    (∀ (t : ActiveABTest) (a b : ℚ), a ≤ b →
      abWinnerMood t (some a) (some b) = t.moodB) ∧
    (∀ a b : ℚ, max a b ≠ 0 →
      abConfidenceLevel (some a) (some b) = some (|a - b| / max a b)) ∧
    (∀ a b : ℚ, 0 ≤ a → 0 ≤ b → max a b ≠ 0 →
      0 ≤ |a - b| / max a b ∧ |a - b| / max a b ≤ 1) ∧
    (abConfidenceLevel (some 0) (some 0) = none) ∧
    (∀ o : Option ℚ, abConfidenceLevel none o = none ∧
      abConfidenceLevel o none = none) ∧
    (jsAvg [] = none ∧ ∀ l : List ℚ, l ≠ [] →
      jsAvg l = some (l.sum / (l.length : ℚ))) := by
  refine ⟨?_, ?_, ?_, ?_, ?_, ?_, ?_, ?_⟩
  · intro t a b h
    simp only [abWinnerMood]
    rw [if_pos h]
  · intro t a b h
    simp only [abWinnerMood]
    rw [if_neg (not_lt.mpr h)]
  · intro a b h
    simp only [abConfidenceLevel]
    rw [if_neg h]
  · intro a b ha hb hmax
    have hmax0 : 0 ≤ max a b := le_max_of_le_left ha
    have hpos : 0 < max a b := lt_of_le_of_ne hmax0 (Ne.symm hmax)
    constructor
    · exact div_nonneg (abs_nonneg _) (le_of_lt hpos)
    · rw [div_le_one hpos]
      rcases le_total a b with h | h
      · rw [abs_of_nonpos (by linarith)]
        have : max a b = b := max_eq_right h
        linarith [this.symm.le]
      · rw [abs_of_nonneg (by linarith)]
        have : max a b = a := max_eq_left h
        linarith [this.symm.le]
  · simp [abConfidenceLevel]
  · intro o
    constructor
    · rfl
    · cases o <;> rfl
  · rfl
  · intro l h
    unfold jsAvg
    rw [if_neg (by simpa using h)]

/-- Witness for C5 (amended) at means 9/10 and 1/2: confidence is defined and
inside `[0,1]`. -/
theorem completeABTest_confidence_props_witness :
    (max ((9:ℚ)/10) (1/2) ≠ 0) ∧ (0 ≤ (9:ℚ)/10) ∧ (0 ≤ (1:ℚ)/2) ∧
    (abConfidenceLevel (some ((9:ℚ)/10)) (some (1/2)) =
      some (|(9:ℚ)/10 - 1/2| / max ((9:ℚ)/10) (1/2))) ∧
    (0 ≤ |(9:ℚ)/10 - 1/2| / max ((9:ℚ)/10) (1/2) ∧
      |(9:ℚ)/10 - 1/2| / max ((9:ℚ)/10) (1/2) ≤ 1) :=
  ⟨by norm_num, by norm_num, by norm_num,
    completeABTest_confidence_props.2.2.1 (9/10) (1/2) (by norm_num),
    completeABTest_confidence_props.2.2.2.1 (9/10) (1/2) (by norm_num)
      (by norm_num) (by norm_num)⟩

/-! ### Claim C6 — the A/B lifecycle scenario -/

theorem c6_state_eq :
    c6State = { emptyState with abTests := [⟨"ab_100_x", "Energetic", "Social",
      "lobby", "Energetic", some (4/9), some (2/5), 50,
      parseTestIdDate "ab_100_x", 7⟩] } := by
  unfold c6State
  rw [recordABTestResult_iterate_armA "ab_100_x" "Energetic" "Social" "lobby"
    (9/10) 7 30 (startABTest emptyState "Energetic" "Social" "lobby" "ab_100_x")
    0 [] [] rfl (by omega)]
  rw [show (20:ℕ) = 1 + 19 by norm_num, Function.iterate_add_apply]
  rw [recordABTestResult_iterate_armB "ab_100_x" "Energetic" "Social" "lobby"
    (1/2) 7 (by simp) 19 _ 30 (List.replicate 30 (9/10)) [] rfl (by omega)]
  rw [Function.iterate_one]
  rw [recordABTestResult_step _ ⟨"ab_100_x", "Energetic", "Social", "lobby", 49,
    List.replicate 30 (9/10), [] ++ List.replicate 19 (1/2)⟩ "ab_100_x" "Social"
    (1/2) 7 rfl rfl]
  dsimp only
  rw [if_neg (by simp : ("Social" : String) ≠ "Energetic"), if_pos rfl,
    if_pos (by omega : 50 ≤ 49 + 1)]
  simp only [completeABTest]
  have havgA : jsAvg (List.replicate 30 ((9:ℚ)/10)) = some (9/10) := by
    unfold jsAvg
    rw [if_neg (by simp)]
    simp [List.sum_replicate]
    norm_num
  have havgB : jsAvg (([] ++ List.replicate 19 ((1:ℚ)/2)) ++ [1/2]) =
      some (1/2) := by
    have h20 : (([] ++ List.replicate 19 ((1:ℚ)/2)) ++ [1/2]) =
        List.replicate 20 (1/2) := by
      simp [List.replicate_succ']
    rw [h20]
    unfold jsAvg
    rw [if_neg (by simp)]
    simp [List.sum_replicate]
    norm_num
  rw [havgA, havgB]
  simp only [abWinnerMood, abConfidenceLevel]
  rw [if_pos (by norm_num : (1:ℚ)/2 < 9/10),
    if_neg (by norm_num : ¬ max ((9:ℚ)/10) (1/2) = 0)]
  have habs : |(9:ℚ)/10 - 1/2| = 2/5 := by
    rw [abs_of_nonneg (by norm_num)]
    norm_num
  have hmax : max ((9:ℚ)/10) (1/2) = 9/10 := max_eq_left (by norm_num)
  rw [habs, hmax]
  simp [startABTest, emptyState, updatePatternsFromABTest]
  norm_num

/-- Claim C6: starting a test between `"Energetic"` and `"Social"`, recording
30 results for `"Energetic"` at engagement 0.9 and then 20 for `"Social"` at
0.5 auto-completes it on the 50th call: winner `"Energetic"`, confidence
`4/9 > 0`, `sampleSize = 50`, the completed test appears in the history
exactly once, the active test is cleared, and the 51st `recordABTestResult`
call is a no-op — as is any call with no active test or a non-matching
`testId` (none of them can fail). -/
theorem abtest_lifecycle :
    c6State.abTests.map (fun r => r.winnerMood) = ["Energetic"] ∧
    c6State.abTests.map (fun r => r.confidenceLevel) = [some (4/9)] ∧
    ((0:ℚ) < 4/9) ∧
    c6State.abTests.map (fun r => r.sampleSize) = [50] ∧
    (c6State.abTests.countP fun r => r.testId = "ab_100_x") = 1 ∧
    c6State.currentABTest = none ∧
    recordABTestResult c6State "ab_100_x" "Social" (1/2) 7 = c6State ∧
    (∀ (st : AdvancedMoodAI) (tid m : String) (e now : ℚ),
      st.currentABTest = none → recordABTestResult st tid m e now = st) ∧
    (∀ (st : AdvancedMoodAI) (t : ActiveABTest) (tid m : String) (e now : ℚ),
      st.currentABTest = some t → t.testId ≠ tid →
      recordABTestResult st tid m e now = st) := by
  refine ⟨?_, ?_, by norm_num, ?_, ?_, ?_, ?_, ?_, ?_⟩
  · rw [c6_state_eq]; rfl
  · rw [c6_state_eq]; rfl
  · rw [c6_state_eq]; rfl
  · rw [c6_state_eq]; simp
  · rw [c6_state_eq]; rfl
  · exact recordABTestResult_no_active _ _ _ _ _ (by rw [c6_state_eq]; rfl)
  · exact fun st tid m e now h => recordABTestResult_no_active st tid m e now h
  · exact fun st t tid m e now hact hne =>
      recordABTestResult_stale st t tid m e now hact hne

/-- Witness for C6: the no-op branches applied at the concrete empty-store
state. -/
theorem abtest_lifecycle_witness :
    emptyState.currentABTest = none ∧
    recordABTestResult emptyState "t" "m" 0 0 = emptyState :=
  ⟨rfl, abtest_lifecycle.2.2.2.2.2.2.2.1 emptyState "t" "m" 0 0 rfl⟩

/-! ### Claim C9 — `sessionCount` advances even for off-arm moods -/

theorem c9_state_eq :
    c9State = { emptyState with abTests := [⟨"ab_0_z", "Energetic", "Social",
      "lobby", "Social", none, none, 50, parseTestIdDate "ab_0_z", 5⟩] } := by
  unfold c9State
  rw [show (50:ℕ) = 1 + 49 by norm_num, Function.iterate_add_apply]
  rw [recordABTestResult_iterate_offarm "ab_0_z" "Contemplative" "Energetic"
    "Social" "lobby" 1 5 (by simp) (by simp) 49
    (startABTest emptyState "Energetic" "Social" "lobby" "ab_0_z") 0 [] []
    rfl (by omega)]
  rw [Function.iterate_one]
  rw [recordABTestResult_step _ ⟨"ab_0_z", "Energetic", "Social", "lobby", 49,
    [], []⟩ "ab_0_z" "Contemplative" 1 5 rfl rfl]
  dsimp only
  rw [if_neg (by simp : ("Contemplative" : String) ≠ "Energetic"),
    if_neg (by simp : ("Contemplative" : String) ≠ "Social"),
    if_pos (by omega : 50 ≤ 49 + 1)]
  simp only [completeABTest]
  rw [show jsAvg ([] : List ℚ) = none from rfl]
  simp [abWinnerMood, abConfidenceLevel, startABTest, emptyState,
    updatePatternsFromABTest]

/-- Claim C9: while a test is active, every `recordABTestResult` call with the
matching `testId` increments `sessionCount` — even when the supplied mood is
neither arm, in which case the engagement sample is discarded — so the
auto-completion threshold advances and a completed test's `sampleSize` (50
here) can exceed the number of samples accumulated in the two arms (0 here,
leaving both the confidence level and the engagement difference non-finite). -/
theorem recordABTestResult_counts_nonarm :
    (∀ (st : AdvancedMoodAI) (t : ActiveABTest) (tid m : String) (e now : ℚ),
      st.currentABTest = some t → t.testId = tid → m ≠ t.moodA → m ≠ t.moodB →
      t.sessionCount + 1 < 50 →
      recordABTestResult st tid m e now =
        { st with currentABTest := some { t with sessionCount := t.sessionCount + 1 } }) ∧
    ((fun s => recordABTestResult s "ab_0_z" "Contemplative" 1 5)^[49]
        (startABTest emptyState "Energetic" "Social" "lobby" "ab_0_z")).currentABTest =
      some ⟨"ab_0_z", "Energetic", "Social", "lobby", 49, [], []⟩ ∧
    c9State.currentABTest = none ∧
    c9State.abTests.map (fun r => r.sampleSize) = [50] ∧
    c9State.abTests.map (fun r => r.confidenceLevel) = [none] ∧
    c9State.abTests.map (fun r => r.engagementDiff) = [none] := by
  refine ⟨?_, ?_, ?_, ?_, ?_, ?_⟩
  · intro st t tid m e now hact hid hA hB hcnt
    rw [recordABTestResult_step st t tid m e now hact hid]
    dsimp only
    rw [if_neg hA, if_neg hB, if_neg (by omega : ¬ 50 ≤ t.sessionCount + 1)]
  · rw [recordABTestResult_iterate_offarm "ab_0_z" "Contemplative" "Energetic"
      "Social" "lobby" 1 5 (by simp) (by simp) 49
      (startABTest emptyState "Energetic" "Social" "lobby" "ab_0_z") 0 [] []
      rfl (by show 0 + 49 ≤ 49; omega)]
  · rw [c9_state_eq]; rfl
  · rw [c9_state_eq]; rfl
  · rw [c9_state_eq]; rfl
  · rw [c9_state_eq]; rfl

/-- Witness for C9 at the first off-arm record of the concrete scenario. -/
theorem recordABTestResult_counts_nonarm_witness :
    (("Contemplative" : String) ≠ "Energetic") ∧
    (("Contemplative" : String) ≠ "Social") ∧ (0 + 1 < 50) ∧
    recordABTestResult (startABTest emptyState "Energetic" "Social" "lobby"
      "ab_0_z") "ab_0_z" "Contemplative" 1 5 =
      { (startABTest emptyState "Energetic" "Social" "lobby" "ab_0_z") with
        currentABTest := some ⟨"ab_0_z", "Energetic", "Social", "lobby", 0 + 1, [], []⟩ } :=
  ⟨by simp, by simp, by omega,
    recordABTestResult_counts_nonarm.1
      (startABTest emptyState "Energetic" "Social" "lobby" "ab_0_z")
      ⟨"ab_0_z", "Energetic", "Social", "lobby", 0, [], []⟩
      "ab_0_z" "Contemplative" 1 5 rfl rfl (by simp) (by simp)
      (by show 0 + 1 < 50; omega)⟩

/-! ### Claim C10 — seeded stores and the pattern-store invariant -/

theorem createNewPattern_ne_nil (ps : List Pattern) (c : ContextData)
    (m : String) (e now : ℚ) (id : String) :
    createNewPattern ps c m e now id ≠ [] := by
  simp only [createNewPattern]
  split
  next h =>
    intro hnil
    have hl := congrArg List.length hnil
    rw [List.length_take, List.length_mergeSort] at hl
    simp only [List.length_nil] at hl
    omega
  next h => simp

theorem updatePatterns_ne_nil (ps : List Pattern) (c : ContextData)
    (m : String) (e now : ℚ) (id : String) (h : ps ≠ []) :
    updatePatterns ps c m e now id ≠ [] := by
  simp only [updatePatterns]
  split
  · exact createNewPattern_ne_nil _ _ _ _ _ _
  · simpa using h

theorem completeABTest_patterns_length (st : AdvancedMoodAI) (now : ℚ) :
    (completeABTest st now).patterns.length = st.patterns.length := by
  unfold completeABTest
  cases h : st.currentABTest with
  | none => rfl
  | some t => simp [updatePatternsFromABTest]

theorem recordABTestResult_patterns_length (st : AdvancedMoodAI)
    (tid m : String) (e now : ℚ) :
    (recordABTestResult st tid m e now).patterns.length = st.patterns.length := by
  unfold recordABTestResult
  cases h : st.currentABTest with
  | none => rfl
  | some t =>
    dsimp only
    split
    · rfl
    · repeat' split
      all_goals
        first
        | rw [completeABTest_patterns_length]
        | rfl

theorem importLearningData_patterns (st : AdvancedMoodAI)
    (d : LearningDataBlob) :
    (importLearningData st d).patterns = d.patterns.getD st.patterns := by
  unfold importLearningData
  cases d.patterns <;> cases d.learningDatabase <;> cases d.abTests <;> rfl

/-- Counterexample to C10: `importLearningData` is a public entry point, and a
blob carrying an empty pattern array (truthy in JS) empties the pattern store
— so "the pattern store is non-empty in every state reachable through the
public API" is false as stated. -/
theorem importLearningData_empties_patterns :
    (importLearningData baseState
      { patterns := some [], learningDatabase := none, abTests := none }).patterns =
      [] := rfl

/-- Claim C10 (amended): the constructor installs the 3 seed patterns and 5
preloaded sample records; `resetLearning` re-installs the seed patterns over
an emptied learning database; and in every state reachable through the
mutating API — excluding `importLearningData` with an explicitly empty
pattern array, which empties the store — the pattern store is non-empty. -/
theorem pattern_store_seeded :
    (∀ (net : MoodNeuralNetwork) (now : ℚ) (durRand : ℕ → ℚ),
      (AdvancedMoodAI.new net now durRand).patterns = initializePatterns now ∧
      (AdvancedMoodAI.new net now durRand).learningDatabase.length = 5) ∧
    (∀ now : ℚ, (initializePatterns now).length = 3) ∧
    (∀ (st : AdvancedMoodAI) (net : MoodNeuralNetwork) (now : ℚ),
      (resetLearning st net now).patterns = initializePatterns now ∧
      (resetLearning st net now).learningDatabase = []) ∧
    (∀ st : AdvancedMoodAI, Reachable st → st.patterns ≠ []) := by
  refine ⟨fun net now durRand => ⟨rfl, rfl⟩, fun now => rfl,
    fun st net now => ⟨rfl, rfl⟩, ?_⟩
  intro st h
  induction h with
  | new net now durRand => simp [AdvancedMoodAI.new, initializePatterns]
  | record st σ context appliedMood outcome now newPatternId hst ih =>
    exact updatePatterns_ne_nil _ _ _ _ _ _ ih
  | startAB st moodA moodB context testId hst ih => exact ih
  | recordAB st testId mood engagement now hst ih =>
    intro hnil
    apply ih
    have hlen := recordABTestResult_patterns_length st testId mood engagement now
    rw [hnil] at hlen
    exact List.length_eq_zero.mp hlen.symm
  | reset st net now hst ih => simp [resetLearning, initializePatterns]
  | importData st d hst hcond ih =>
    rw [importLearningData_patterns st d]
    rcases hcond with hnone | ⟨ps, hps, hne⟩
    · rw [hnone]
      simpa using ih
    · rw [hps]
      simpa using hne

/-- Witness for C10 (amended): the freshly constructed engine is reachable
and its pattern store is non-empty. -/
theorem pattern_store_seeded_witness : baseState.patterns ≠ [] :=
  pattern_store_seeded.2.2.2 baseState (Reachable.new zeroNet 0 fun _ => 0)

/-! ### Claim C1 — totality and bounds of `predictOptimalMood` -/

theorem mem_mapIdx_strong {α β : Type} {x : β} {f : ℕ → α → β} {l : List α}
    (d : α) (h : x ∈ l.mapIdx f) :
    ∃ j, j < l.length ∧ l.getD j d ∈ l ∧ x = f j (l.getD j d) := by
  rw [List.mapIdx_eq_enum_map] at h
  obtain ⟨⟨j, a⟩, hmem, hxe⟩ := List.mem_map.mp h
  obtain ⟨hj, ha⟩ := List.mem_enum hmem
  refine ⟨j, hj, ?_, ?_⟩
  · rw [list_getD_eq_getElem _ _ _ hj]
    exact List.getElem_mem hj
  · rw [list_getD_eq_getElem _ _ _ hj, ← ha]
    exact hxe.symm

theorem predict_length (σ : ℚ → ℚ) (net : MoodNeuralNetwork) (inputs : List ℚ)
    (h2 : net.weights.length = 2) :
    (net.predict σ inputs).length =
      ((net.weights.getD 1 []).getD 0 []).length := by
  unfold MoodNeuralNetwork.predict
  rw [h2, show List.range 2 = [0, 1] from rfl]
  simp

theorem predict_mem_bounds (σ : ℚ → ℚ) (hσ : ∀ x, 0 ≤ σ x ∧ σ x ≤ 1)
    (net : MoodNeuralNetwork) (inputs : List ℚ) (h2 : net.weights.length = 2) :
    ∀ x ∈ net.predict σ inputs, 0 ≤ x ∧ x ≤ 1 := by
  unfold MoodNeuralNetwork.predict
  rw [h2, show List.range 2 = [0, 1] from rfl]
  simp only [List.foldl_cons, List.foldl_nil]
  intro x hx
  obtain ⟨n, _, rfl⟩ := List.mem_map.mp hx
  exact hσ _

theorem votes_foldl_nonneg (ps : List Pattern)
    (hp : ∀ p ∈ ps, 0 ≤ p.successRate ∧ 0 ≤ p.confidence) :
    ∀ acc : List ℚ, (∀ x ∈ acc, 0 ≤ x) →
    ∀ x ∈ ps.foldl (fun votes pattern =>
        match moodMappings pattern.recommendedMood with
        | some moodIdx => votes.mapIdx fun j v =>
            if j = moodIdx then v + pattern.successRate * pattern.confidence
            else v
        | none => votes) acc, 0 ≤ x := by
  induction ps with
  | nil => intro acc hacc x hx; exact hacc x hx
  | cons p t ih =>
    intro acc hacc x hx
    rw [List.foldl_cons] at hx
    refine ih (fun q hq => hp q (List.mem_cons_of_mem p hq)) _ ?_ x hx
    intro y hy
    cases hmm : moodMappings p.recommendedMood with
    | none => rw [hmm] at hy; exact hacc y hy
    | some i =>
      rw [hmm] at hy
      obtain ⟨j, hj, hmem, rfl⟩ := mem_mapIdx_strong 0 hy
      have h0 := hacc _ hmem
      have hsr := hp p (List.mem_cons_self p t)
      by_cases hji : j = i
      · rw [if_pos hji]
        have := mul_nonneg hsr.1 hsr.2
        linarith
      · rw [if_neg hji]
        exact h0

theorem normalized_probs_bounds (votes : List ℚ) (hv : ∀ x ∈ votes, 0 ≤ x)
    (hpos : 0 < votes.sum) :
    ∀ x ∈ votes.map (fun vote => vote / votes.sum), 0 ≤ x ∧ x ≤ 1 := by
  intro x hx
  obtain ⟨v, hvm, rfl⟩ := List.mem_map.mp hx
  constructor
  · exact div_nonneg (hv v hvm) (le_of_lt hpos)
  · rw [div_le_one hpos]
    exact List.single_le_sum hv v hvm

theorem uniform_bounds : ∀ x ∈ uniformProbabilities, 0 ≤ x ∧ x ≤ 1 := by
  intro x hx
  simp [uniformProbabilities] at hx
  rw [hx]
  norm_num

theorem applyPatternRecognition_bounds (patterns : List Pattern)
    (context : ContextData)
    (hp : ∀ p ∈ patterns, 0 ≤ p.successRate ∧ 0 ≤ p.confidence) :
    0 ≤ (applyPatternRecognition patterns context).confidence ∧
    ∀ x ∈ (applyPatternRecognition patterns context).moodProbabilities,
      0 ≤ x ∧ x ≤ 1 := by
  simp only [applyPatternRecognition]
  split
  · exact ⟨by norm_num, uniform_bounds⟩
  · dsimp only
    have hmf : ∀ q ∈ patterns.filter (fun pattern => patternMatches pattern context),
        0 ≤ q.successRate ∧ 0 ≤ q.confidence :=
      fun q hq => hp q (List.mem_filter.mp hq).1
    have hvotes := votes_foldl_nonneg _ hmf (List.replicate 5 0)
      (by intro x hx; rw [List.eq_of_mem_replicate hx])
    constructor
    · refine le_min (by norm_num) ?_
      positivity
    · split
      next hpos => exact normalized_probs_bounds _ hvotes hpos
      next hpos => exact uniform_bounds

theorem findSimilarContexts_engagement (db : List LearningRecord)
    (context : ContextData) (threshold : ℚ)
    (hdb : ∀ r ∈ db, 0 ≤ r.outcome.engagement) :
    ∀ s ∈ findSimilarContexts db context threshold,
      0 ≤ s.outcome.engagement := by
  intro s hs
  unfold findSimilarContexts at hs
  have h1 := List.take_subset 10 _ hs
  have h2 := List.mem_mergeSort.mp h1
  have h3 := (List.mem_filter.mp h2).1
  obtain ⟨r, hr, rfl⟩ := List.mem_map.mp h3
  exact hdb r hr

theorem moodPerformance_nonneg (sessions : List ScoredRecord)
    (hs : ∀ s ∈ sessions, 0 ≤ s.outcome.engagement) :
    ∀ e ∈ moodPerformance sessions, 0 ≤ e.1 := by
  unfold moodPerformance
  suffices h : ∀ ss : List ScoredRecord, (∀ s ∈ ss, 0 ≤ s.outcome.engagement) →
      ∀ acc : List (ℚ × ℕ), (∀ e ∈ acc, 0 ≤ e.1) →
      ∀ e ∈ ss.foldl (fun acc session =>
        match moodMappings session.appliedMood with
        | some moodIdx => acc.mapIdx fun j entry =>
            if j = moodIdx then (entry.1 + session.outcome.engagement, entry.2 + 1)
            else entry
        | none => acc) acc, 0 ≤ e.1 by
    refine h sessions hs _ ?_
    intro e he
    rw [List.eq_of_mem_replicate he]
  intro ss
  induction ss with
  | nil => intro _ acc hacc e he; exact hacc e he
  | cons s t ih =>
    intro hss acc hacc e he
    rw [List.foldl_cons] at he
    have hse : 0 ≤ s.outcome.engagement := hss s (List.mem_cons_self s t)
    refine ih (fun q hq => hss q (List.mem_cons_of_mem s hq)) _ ?_ e he
    intro y hy
    cases hmm : moodMappings s.appliedMood with
    | none => rw [hmm] at hy; exact hacc y hy
    | some i =>
      rw [hmm] at hy
      obtain ⟨j, hj, hmem, rfl⟩ := mem_mapIdx_strong (0, 0) hy
      have h0 := hacc _ hmem
      by_cases hji : j = i
      · rw [if_pos hji]
        dsimp only
        linarith
      · rw [if_neg hji]
        exact h0

theorem applyHistoricalLearning_bounds (db : List LearningRecord)
    (context : ContextData)
    (hdb : ∀ r ∈ db, 0 ≤ r.outcome.engagement) :
    0 ≤ (applyHistoricalLearning db context).confidence ∧
    ∀ x ∈ (applyHistoricalLearning db context).moodProbabilities,
      0 ≤ x ∧ x ≤ 1 := by
  simp only [applyHistoricalLearning]
  split
  · exact ⟨by norm_num, uniform_bounds⟩
  · dsimp only
    have hsim := findSimilarContexts_engagement db context (4/5) hdb
    have hperf := moodPerformance_nonneg _ hsim
    have hprobs : ∀ x ∈ (moodPerformance
        (findSimilarContexts db context (4/5))).map (fun entry =>
          if 0 < entry.2 then entry.1 / (entry.2 : ℚ) else 1/5), 0 ≤ x := by
      intro x hx
      obtain ⟨e, he, rfl⟩ := List.mem_map.mp hx
      split
      · exact div_nonneg (hperf e he) (by positivity)
      · norm_num
    constructor
    · exact le_min (by norm_num) (by positivity)
    · split
      next hpos => exact normalized_probs_bounds _ hprobs hpos
      next => exact uniform_bounds

theorem applyTemporalContext_bounds (context : ContextData) :
    ∀ x ∈ (applyTemporalContext context).moodAdjustments, 0 ≤ x ∧ x ≤ 1 := by
  unfold applyTemporalContext
  cases ht : context.environmental.timeOfDay <;>
    cases hd : context.environmental.dayOfWeek <;>
      simp only [ht, hd, addAt, List.mapIdx_cons, List.mapIdx_nil] <;>
        intro x hx <;> simp at hx <;>
          rcases hx with rfl | rfl | rfl | rfl | rfl <;> norm_num

theorem combinepredictions_bounds (neural : List ℚ)
    (pattern : PatternPrediction) (historical : HistoricalPrediction)
    (temporal : TemporalAdjustment)
    (hn : ∀ x ∈ neural, 0 ≤ x ∧ x ≤ 1)
    (hpc : 0 ≤ pattern.confidence) (hhc : 0 ≤ historical.confidence)
    (hpb : ∀ x ∈ pattern.moodProbabilities, 0 ≤ x ∧ x ≤ 1)
    (hhb : ∀ x ∈ historical.moodProbabilities, 0 ≤ x ∧ x ≤ 1)
    (htb : ∀ x ∈ temporal.moodAdjustments, 0 ≤ x ∧ x ≤ 1) :
    ∀ x ∈ combinepredictions neural pattern historical temporal,
      0 ≤ x ∧ x ≤ 1 := by
  simp only [combinepredictions]
  intro x hx
  obtain ⟨j, hj, _, rfl⟩ := mem_mapIdx_strong 0 hx
  have hb01 : ((0:ℚ) ≤ 0 ∧ (0:ℚ) ≤ 1) := by norm_num
  have h1 := list_getD_bounds 0 1 hb01 hn j
  have h2 := list_getD_bounds 0 1 hb01 hpb j
  have h3 := list_getD_bounds 0 1 hb01 hhb j
  have h4 := list_getD_bounds 0 1 hb01 htb j
  have hWpos : (0:ℚ) < 2/5 + 3/10 * pattern.confidence +
      1/5 * historical.confidence + 1/10 := by nlinarith
  constructor
  · apply div_nonneg _ (le_of_lt hWpos)
    have t1 : 0 ≤ neural.getD j 0 * (2/5) := by nlinarith [h1.1]
    have t2 : 0 ≤ pattern.moodProbabilities.getD j 0 *
        (3/10 * pattern.confidence) := by nlinarith [h2.1]
    have t3 : 0 ≤ historical.moodProbabilities.getD j 0 *
        (1/5 * historical.confidence) := by nlinarith [h3.1]
    have t4 : 0 ≤ temporal.moodAdjustments.getD j 0 * (1/10) := by
      nlinarith [h4.1]
    linarith
  · rw [div_le_one hWpos]
    have t1 : neural.getD j 0 * (2/5) ≤ 2/5 := by nlinarith [h1.2]
    have t2 : pattern.moodProbabilities.getD j 0 *
        (3/10 * pattern.confidence) ≤ 3/10 * pattern.confidence := by
      nlinarith [h2.1, h2.2]
    have t3 : historical.moodProbabilities.getD j 0 *
        (1/5 * historical.confidence) ≤ 1/5 * historical.confidence := by
      nlinarith [h3.1, h3.2]
    have t4 : temporal.moodAdjustments.getD j 0 * (1/10) ≤ 1/10 := by
      nlinarith [h4.2]
    linarith

theorem combinepredictions_length (neural : List ℚ)
    (pattern : PatternPrediction) (historical : HistoricalPrediction)
    (temporal : TemporalAdjustment) :
    (combinepredictions neural pattern historical temporal).length =
      neural.length := by
  simp [combinepredictions]

theorem moodNames_getD_mem (j : ℕ) (hj : j < 5) (d : String) :
    moodNames.getD j d ∈ moodNames := by
  interval_cases j <;> simp [moodNames, List.getD]

/-- Claim C1: for every `ContextData` — including one whose vision and audio
fields are both `null` — and every engine state with the constructor's network
shape and nonnegative stored scores, `predictOptimalMood` returns a
`MoodPrediction` whose `recommendedMood` is one of the five vocabulary moods
and whose `confidence` lies in `[0,1]`.  (Totality itself is by construction:
every sensor absence and empty store degrades to the embedded fallbacks, and
no partial operation occurs.) -/
theorem predictOptimalMood_total (σ : ℚ → ℚ) (hσ : ∀ x, 0 ≤ σ x ∧ σ x ≤ 1)
    (st : AdvancedMoodAI) (context : ContextData) (hst : ValidState st) :
    (predictOptimalMood σ st context).recommendedMood ∈ moodNames ∧
    0 ≤ (predictOptimalMood σ st context).confidence ∧
    (predictOptimalMood σ st context).confidence ≤ 1 := by
  obtain ⟨h2, h5, hpat, hdb⟩ := hst
  have hnb := predict_mem_bounds σ hσ st.neuralNetwork (contextToInputs context) h2
  have hnl : (st.neuralNetwork.predict σ (contextToInputs context)).length = 5 := by
    rw [predict_length σ _ _ h2, h5]
  have hpb := applyPatternRecognition_bounds st.patterns context hpat
  have hhb := applyHistoricalLearning_bounds st.learningDatabase context hdb
  have htb := applyTemporalContext_bounds context
  have hcomb := combinepredictions_bounds _ _ _ _ hnb hpb.1 hhb.1 hpb.2 hhb.2 htb
  have hel : (combinepredictions
      (st.neuralNetwork.predict σ (contextToInputs context))
      (applyPatternRecognition st.patterns context)
      (applyHistoricalLearning st.learningDatabase context)
      (applyTemporalContext context)).length = 5 := by
    rw [combinepredictions_length, hnl]
  have hrl : (rankedPredictions σ st context).length = 5 := by
    simp only [rankedPredictions]
    rw [List.length_mergeSort, List.length_mapIdx, hel]
  have hne : rankedPredictions σ st context ≠ [] := by
    intro h0
    rw [h0] at hrl
    simp at hrl
  have hmem := list_getD_zero_mem hne (RankedMood.mk "undefined" 0)
  have hmem2 : (rankedPredictions σ st context).getD 0 (RankedMood.mk "undefined" 0) ∈
      ((combinepredictions
        (st.neuralNetwork.predict σ (contextToInputs context))
        (applyPatternRecognition st.patterns context)
        (applyHistoricalLearning st.learningDatabase context)
        (applyTemporalContext context)).mapIdx fun index prob =>
          RankedMood.mk (moodNames.getD index "undefined") prob) :=
    List.mem_mergeSort.mp hmem
  obtain ⟨j, hj, _, heq⟩ := mem_mapIdx_strong 0 hmem2
  rw [hel] at hj
  have hgd : (combinepredictions
      (st.neuralNetwork.predict σ (contextToInputs context))
      (applyPatternRecognition st.patterns context)
      (applyHistoricalLearning st.learningDatabase context)
      (applyTemporalContext context)).getD j 0 ∈
      combinepredictions
        (st.neuralNetwork.predict σ (contextToInputs context))
        (applyPatternRecognition st.patterns context)
        (applyHistoricalLearning st.learningDatabase context)
        (applyTemporalContext context) := by
    rw [list_getD_eq_getElem _ _ _ (by rw [hel]; exact hj)]
    exact List.getElem_mem _
  have hbounds := hcomb _ hgd
  refine ⟨?_, ?_, ?_⟩
  · show ((rankedPredictions σ st context).getD 0
      (RankedMood.mk "undefined" 0)).mood ∈ moodNames
    rw [heq]
    exact moodNames_getD_mem j hj _
  · show 0 ≤ ((rankedPredictions σ st context).getD 0
      (RankedMood.mk "undefined" 0)).probability
    rw [heq]
    exact hbounds.1
  · show ((rankedPredictions σ st context).getD 0
      (RankedMood.mk "undefined" 0)).probability ≤ 1
    rw [heq]
    exact hbounds.2

/-- Witness for C1: the freshly constructed engine and the context with both
sensors `null`, under the constant activation `1/2`. -/
theorem predictOptimalMood_total_witness :
    (∀ x : ℚ, 0 ≤ (fun _ : ℚ => (1:ℚ)/2) x ∧ (fun _ : ℚ => (1:ℚ)/2) x ≤ 1) ∧
    ValidState baseState ∧
    ((predictOptimalMood (fun _ => (1:ℚ)/2) baseState plainCtx).recommendedMood
        ∈ moodNames ∧
      0 ≤ (predictOptimalMood (fun _ => (1:ℚ)/2) baseState plainCtx).confidence ∧
      (predictOptimalMood (fun _ => (1:ℚ)/2) baseState plainCtx).confidence ≤ 1) := by
  have hσ : ∀ x : ℚ, 0 ≤ (fun _ : ℚ => (1:ℚ)/2) x ∧
      (fun _ : ℚ => (1:ℚ)/2) x ≤ 1 := by
    intro x
    constructor <;> norm_num
  have hval : ValidState baseState := by
    refine ⟨rfl, rfl, ?_, ?_⟩
    · intro p hp
      simp [baseState, AdvancedMoodAI.new, initializePatterns] at hp
      rcases hp with rfl | rfl | rfl <;> constructor <;> norm_num
    · intro r hr
      simp [baseState, AdvancedMoodAI.new, generateSampleLearningData,
        sampleRecord] at hr
      rcases hr with rfl | rfl | rfl | rfl | rfl <;> norm_num
  exact ⟨hσ, hval, predictOptimalMood_total _ hσ baseState plainCtx hval⟩
